import Mathlib

/-!
Verification of `libnetwork/osl/interface_linux.go` (package `osl`).

The Go code manages network interfaces attached to a network namespace
(sandbox).  All kernel interaction goes through a netlink handle; we embed
that handle as a `Kernel` record of response functions, and every modelled
operation returns, besides its result, the list of netlink calls it made
(`NLCall` trace).  State that lives in the Go process (the namespace
registry) is passed and returned explicitly.  Pointer identity of the
`nwIface` records (Go compares interface pointers with `==` in `Remove`)
is modelled with an `id` field allocated by the registry.
-/

/-- Go `net.IPNet`: an IP network given by an address and a prefix length.
`width` is the address width in bits (32 for IPv4, 128 for IPv6),
standing for `len(IP)` in the Go code.  `ip` is the address value as a
number. -/
structure IPNet where
  width : Nat
  ip : Nat
  prefixLen : Nat
deriving DecidableEq, Repr

/-- Keep the top `p` bits of a `w`-bit value: this is `ip & mask` for the
CIDR mask of prefix length `p`. -/
def maskKeep (w p v : Nat) : Nat :=
  v / 2 ^ (w - p) * 2 ^ (w - p)

/-- Go `net.IPNet.Contains`: mask both the network address and the candidate
address with the network mask and compare.  Addresses of a different
width are never contained (Go compares lengths first). -/
def IPNet.containsIP (n : IPNet) (w : Nat) (x : Nat) : Bool :=
  n.width == w && maskKeep n.width n.prefixLen n.ip == maskKeep n.width n.prefixLen x

/-- Abstract rendering of an IPNet used inside error messages (the Go code
formats with the `%v` verb; the exact rendering is not behaviourally
relevant, only that the message identifies the network). -/
def ipnetRepr (n : IPNet) : String :=
  Nat.repr n.ip ++ "/" ++ Nat.repr n.prefixLen

/-- Go `types.InterfaceStatistics`. -/
structure InterfaceStatistics where
  rxBytes : Nat
  txBytes : Nat
  rxPackets : Nat
  txPackets : Nat
  rxDropped : Nat
  txDropped : Nat
deriving DecidableEq, Repr

/-- A located kernel link (`netlink.Link`): the attributes the code reads
are the name, the index and the optional statistics object. -/
structure Link where
  name : String
  index : Nat
  statistics : Option InterfaceStatistics
deriving DecidableEq, Repr

/-- One netlink (or collaborator) call, as observed on the trace.
Calls issued on the host handle (`ns.NlHandle()`) are distinguished from
calls on the namespace handle where the code distinguishes them. -/
inductive NLCall where
  | hostLinkByName (name : String)
  | getFromPath (path : String)
  | hostLinkSetNsFd
  | linkAdd (name : String)
  | linkByName (name : String)
  | linkSetDown
  | linkSetName (name : String)
  | linkSetHardwareAddr (mac : List Nat)
  | routeList (family : Nat)
  | addrAdd (net : IPNet) (noDAD : Bool)
  | setIPv6 (path : String) (name : String) (enable : Bool)
  | linkSetMaster (name : String)
  | linkSetUp
  | sleep (ms : Nat)
  | routeAdd (net : IPNet)
  | linkSetNsFdCaller
  | linkDel
  | checkLoV6
deriving DecidableEq, Repr

/-- The netlink handle and external collaborators, embedded as a record of
response functions.  `linkSetUp` receives the zero-based attempt number so
that a stub can simulate transient link-up failures. -/
structure Kernel where
  hostLinkByName : String → Except String Link
  getFromPath : String → Except String Unit
  hostLinkSetNsFd : Except String Unit
  linkAdd : String → Except String Unit
  linkByName : String → Except String Link
  linkSetDown : Except String Unit
  linkSetName : String → Except String Unit
  linkSetHardwareAddr : List Nat → Except String Unit
  routeList : Nat → Except String (List (Option IPNet))
  addrAdd : IPNet → Bool → Except String Unit
  setIPv6 : String → String → Bool → Except String Unit
  linkSetMaster : String → Except String Unit
  linkSetUp : Nat → Except String Unit
  routeAdd : IPNet → Except String Unit
  linkSetNsFdCaller : Except String Unit
  linkDel : Except String Unit

/-- Go `netlink.FAMILY_V4`. -/
def FAMILY_V4 : Nat := 2
/-- Go `netlink.FAMILY_V6`. -/
def FAMILY_V6 : Nat := 10

/-- Go `nwIface`: the settings and identity of one managed network device.
The back-reference `ns` of the Go struct is reduced to the field the
configuration steps read through it (`ns.path`); the registry itself is
passed explicitly to `Remove`.  `id` models the pointer identity of the
Go heap object. -/
structure nwIface where
  id : Nat
  srcName : String
  dstName : String
  master : String
  dstMaster : String
  mac : Option (List Nat)
  address : Option IPNet
  addressIPv6 : Option IPNet
  llAddrs : List IPNet
  routes : List IPNet
  bridge : Bool
  nsPath : String
deriving DecidableEq, Repr

/-- Go `networkNamespace`: the per-sandbox registry.  `nextIfIndex` is the
per-prefix counter map (a Go map defaulting to zero, embedded as an
association list).  `nextId` models the heap allocator for `nwIface`
pointer identities. -/
structure networkNamespace where
  path : String
  isDefault : Bool
  iFaces : List nwIface
  nextIfIndex : List (String × Nat)
  nextId : Nat
deriving DecidableEq, Repr

/-- Read of the Go map `n.nextIfIndex[p]`: zero when absent. -/
def lookupCount (m : List (String × Nat)) (p : String) : Nat :=
  match m with
  | [] => 0
  | kv :: rest => if kv.1 = p then kv.2 else lookupCount rest p

/-- Go `n.nextIfIndex[p]++`: increment, inserting the key when absent. -/
def bumpCount (m : List (String × Nat)) (p : String) : List (String × Nat) :=
  match m with
  | [] => [(p, 1)]
  | kv :: rest => if kv.1 = p then (kv.1, kv.2 + 1) :: rest else kv :: bumpCount rest p

/-- Destination-name allocation, the registry-locked section of
`AddInterface` (interface_linux.go lines 198 to 204): in the default
namespace the destination name is the source name and no counter moves;
otherwise it is the prefix with the current counter value appended, and
the counter is bumped. -/
def allocDstName (n : networkNamespace) (srcName dstPfx : String) :
    String × networkNamespace :=
  if n.isDefault then (srcName, n)
  else (dstPfx ++ Nat.repr (lookupCount n.nextIfIndex dstPfx),
        { n with nextIfIndex := bumpCount n.nextIfIndex dstPfx })

/-- Linear scan of `findDst` (lines 167 to 180). -/
def findDstGo (srcName : String) (isBridge : Bool) : List nwIface → String
  | [] => ""
  | i :: rest =>
    if i.srcName = srcName && (!isBridge || i.bridge) then i.dstName
    else findDstGo srcName isBridge rest

/-- Go `findDst`: first registered entity whose source name matches and, when
a bridge is wanted, whose bridge flag is set; empty string when absent. -/
def findDst (n : networkNamespace) (srcName : String) (isBridge : Bool) : String :=
  findDstGo srcName isBridge n.iFaces

/-- The scan of `checkRouteConflict` over the fetched routes (lines 392 to
399): a route with a nil destination is skipped; otherwise a conflict is
reported when the route destination contains the candidate address or the
candidate network contains the route destination address. -/
def routeConflictScan (address : IPNet) : List (Option IPNet) → Except String Unit
  | [] => Except.ok ()
  | none :: rest => routeConflictScan address rest
  | some d :: rest =>
    if d.containsIP address.width address.ip || address.containsIP d.width d.ip then
      Except.error ("cannot program address " ++ ipnetRepr address ++
        " in sandbox interface because it conflicts with existing route " ++ ipnetRepr d)
    else routeConflictScan address rest

/-- Go `checkRouteConflict` (lines 387 to 401): list the routes of the given
family, then scan for a containment conflict. -/
def checkRouteConflict (k : Kernel) (address : IPNet) (family : Nat) :
    Except String Unit × List NLCall :=
  match k.routeList family with
  | Except.error e => (Except.error e, [NLCall.routeList family])
  | Except.ok routes => (routeConflictScan address routes, [NLCall.routeList family])

/-- Rendering of an optional MAC for error messages. -/
def macRepr (m : Option (List Nat)) : String :=
  match m with
  | none => "<nil>"
  | some bs => String.intercalate ":" (bs.map Nat.repr)

/-- Rendering of an optional IPNet for error messages. -/
def optNetRepr (a : Option IPNet) : String :=
  match a with
  | none => "<nil>"
  | some x => ipnetRepr x

/-- Go `setInterfaceName` (lines 369 to 371): rename the device to the
destination name. -/
def setInterfaceName (k : Kernel) (_iface : Link) (i : nwIface) :
    Except String Unit × List NLCall :=
  (k.linkSetName i.dstName, [NLCall.linkSetName i.dstName])

/-- Go `setInterfaceMAC` (lines 327 to 332): a no-op when no MAC is
configured, otherwise set the hardware address. -/
def setInterfaceMAC (k : Kernel) (_iface : Link) (i : nwIface) :
    Except String Unit × List NLCall :=
  match i.mac with
  | none => (Except.ok (), [])
  | some m => (k.linkSetHardwareAddr m, [NLCall.linkSetHardwareAddr m])

/-- Go `setInterfaceIP` (lines 334 to 343): a no-op without an IPv4 network;
otherwise run the route-conflict check for the IPv4 family and, only when
it passes, add the address (empty label, no flags). -/
def setInterfaceIP (k : Kernel) (_iface : Link) (i : nwIface) :
    Except String Unit × List NLCall :=
  match i.address with
  | none => (Except.ok (), [])
  | some a =>
    match checkRouteConflict k a FAMILY_V4 with
    | (Except.error e, tr) => (Except.error e, tr)
    | (Except.ok _, tr) =>
      (k.addrAdd a false, tr ++ [NLCall.addrAdd a false])

/-- Go `setInterfaceIPv6` (lines 345 to 357): a no-op without an IPv6
network; otherwise run the route-conflict check for the IPv6 family, then
enable IPv6 for the device in the namespace (failure wrapped), then add
the address with the no-DAD flag. -/
def setInterfaceIPv6 (k : Kernel) (_iface : Link) (i : nwIface) :
    Except String Unit × List NLCall :=
  match i.addressIPv6 with
  | none => (Except.ok (), [])
  | some a =>
    match checkRouteConflict k a FAMILY_V6 with
    | (Except.error e, tr) => (Except.error e, tr)
    | (Except.ok _, tr) =>
      match k.setIPv6 i.nsPath i.dstName true with
      | Except.error e =>
        (Except.error ("failed to enable ipv6: " ++ e),
         tr ++ [NLCall.setIPv6 i.nsPath i.dstName true])
      | Except.ok _ =>
        (k.addrAdd a true,
         tr ++ [NLCall.setIPv6 i.nsPath i.dstName true, NLCall.addrAdd a true])

/-- Go `setInterfaceMaster` (lines 317 to 325): a no-op when no destination
master was resolved, otherwise bind the device to the master bridge. -/
def setInterfaceMaster (k : Kernel) (_iface : Link) (i : nwIface) :
    Except String Unit × List NLCall :=
  if i.dstMaster = "" then (Except.ok (), [])
  else (k.linkSetMaster i.dstMaster, [NLCall.linkSetMaster i.dstMaster])

/-- The loop of `setInterfaceLinkLocalIPs`: add each link-local address,
aborting at the first failure. -/
def addLinkLocalIPs (k : Kernel) : List IPNet → Except String Unit × List NLCall
  | [] => (Except.ok (), [])
  | a :: rest =>
    match k.addrAdd a false with
    | Except.error e => (Except.error e, [NLCall.addrAdd a false])
    | Except.ok _ =>
      match addLinkLocalIPs k rest with
      | (r, tr) => (r, NLCall.addrAdd a false :: tr)

/-- Go `setInterfaceLinkLocalIPs` (lines 359 to 367). -/
def setInterfaceLinkLocalIPs (k : Kernel) (_iface : Link) (i : nwIface) :
    Except String Unit × List NLCall :=
  addLinkLocalIPs k i.llAddrs

/-- The configurator table of `configureInterface` (lines 297 to 307):
six steps, each paired with its step-specific error message, in the fixed
source order. -/
def ifaceConfigurators (ifaceName : String) (i : nwIface) :
    List ((Kernel → Link → nwIface → Except String Unit × List NLCall) × String) :=
  [ (setInterfaceName, "error renaming interface " ++ ifaceName ++ " to " ++ i.dstName),
    (setInterfaceMAC, "error setting interface " ++ ifaceName ++ " MAC to " ++ macRepr i.mac),
    (setInterfaceIP, "error setting interface " ++ ifaceName ++ " IP to " ++ optNetRepr i.address),
    (setInterfaceIPv6,
      "error setting interface " ++ ifaceName ++ " IPv6 to " ++ optNetRepr i.addressIPv6),
    (setInterfaceMaster,
      "error setting interface " ++ ifaceName ++ " master to " ++ i.dstMaster),
    (setInterfaceLinkLocalIPs,
      "error setting interface " ++ ifaceName ++ " link local IPs") ]

/-- The loop of `configureInterface` (lines 309 to 314): run each step in
order; the first failing step aborts the pipeline and its error, wrapped
with the step message, is returned. -/
def runConfigurators (k : Kernel) (iface : Link) (i : nwIface) :
    List ((Kernel → Link → nwIface → Except String Unit × List NLCall) × String) →
    Except String Unit × List NLCall
  | [] => (Except.ok (), [])
  | step :: rest =>
    match step.1 k iface i with
    | (Except.error e, tr) => (Except.error (step.2 ++ ": " ++ e), tr)
    | (Except.ok _, tr) =>
      match runConfigurators k iface i rest with
      | (r, tr2) => (r, tr ++ tr2)

/-- Go `configureInterface` (lines 295 to 315). -/
def configureInterface (k : Kernel) (iface : Link) (i : nwIface) :
    Except String Unit × List NLCall :=
  runConfigurators k iface i (ifaceConfigurators iface.name i)

/-- Rendering of a route list for error messages. -/
def netsRepr (l : List IPNet) : String :=
  String.intercalate " " (l.map ipnetRepr)

/-- The retry iterations of the link-up loop (lines 271 to 276): each
iteration sleeps for the fixed 10ms delay and retries; the fuel starts at
3 (the loop guard is `cnt < 3`), and the error of the last attempt is kept. -/
def linkUpRetries (k : Kernel) : Nat → Nat → String → Except String Unit × List NLCall
  | 0, _, e => (Except.error e, [])
  | f + 1, attempt, _ =>
    match k.linkSetUp attempt with
    | Except.ok _ => (Except.ok (), [NLCall.sleep 10, NLCall.linkSetUp])
    | Except.error e2 =>
      match linkUpRetries k f (attempt + 1) e2 with
      | (r, tr) => (r, NLCall.sleep 10 :: NLCall.linkSetUp :: tr)

/-- The link-up loop of `AddInterface` (lines 270 to 276): an initial
attempt followed by at most 3 retries. -/
def linkUp (k : Kernel) : Except String Unit × List NLCall :=
  match k.linkSetUp 0 with
  | Except.ok _ => (Except.ok (), [NLCall.linkSetUp])
  | Except.error e =>
    match linkUpRetries k 3 1 e with
    | (r, tr) => (r, NLCall.linkSetUp :: tr)

/-- The loop of `setInterfaceRoutes`: add each route, aborting at the
first failure. -/
def addRoutes (k : Kernel) : List IPNet → Except String Unit × List NLCall
  | [] => (Except.ok (), [])
  | r :: rest =>
    match k.routeAdd r with
    | Except.error e => (Except.error e, [NLCall.routeAdd r])
    | Except.ok _ =>
      match addRoutes k rest with
      | (res, tr) => (res, NLCall.routeAdd r :: tr)

/-- Go `setInterfaceRoutes` (lines 373 to 385): install every configured
route as a link-scoped kernel route. -/
def setInterfaceRoutes (k : Kernel) (_iface : Link) (i : nwIface) :
    Except String Unit × List NLCall :=
  addRoutes k i.routes

/-- Removal of a registered entity from the collection (lines 131 to 138):
the entity is found by identity (`intf == i` on Go pointers, here the
`id` field) and the first match is spliced out. -/
def removeByIdentity : List nwIface → Nat → List nwIface
  | [], _ => []
  | x :: xs, ident => if x.id = ident then xs else x :: removeByIdentity xs ident

/-- Successful tail of `Remove` (lines 131 to 142): deregister the entity
by identity and trigger the IPv6-loopback reconciliation. -/
def removeFinish (n : networkNamespace) (i : nwIface) (tr : List NLCall) :
    Except String Unit × networkNamespace × List NLCall :=
  (Except.ok (),
   { n with iFaces := removeByIdentity n.iFaces i.id },
   tr ++ [NLCall.checkLoV6])

/-- Go `Remove` (lines 95 to 143): locate the device by destination name, set
it down, rename it back to the source name (a rename failure aborts),
then delete it (bridge) or move it back to the caller namespace
(non-bridge, non-default namespace), and finally deregister the entity. -/
def Remove (k : Kernel) (n : networkNamespace) (i : nwIface) :
    Except String Unit × networkNamespace × List NLCall :=
  match k.linkByName i.dstName with
  | Except.error e => (Except.error e, n, [NLCall.linkByName i.dstName])
  | Except.ok _ =>
    match k.linkSetDown with
    | Except.error e =>
      (Except.error e, n, [NLCall.linkByName i.dstName, NLCall.linkSetDown])
    | Except.ok _ =>
      match k.linkSetName i.srcName with
      | Except.error e =>
        (Except.error e, n,
         [NLCall.linkByName i.dstName, NLCall.linkSetDown, NLCall.linkSetName i.srcName])
      | Except.ok _ =>
        if i.bridge then
          match k.linkDel with
          | Except.error e =>
            (Except.error ("failed deleting bridge " ++ i.srcName ++ ": " ++ e), n,
             [NLCall.linkByName i.dstName, NLCall.linkSetDown,
              NLCall.linkSetName i.srcName, NLCall.linkDel])
          | Except.ok _ =>
            removeFinish n i
              [NLCall.linkByName i.dstName, NLCall.linkSetDown,
               NLCall.linkSetName i.srcName, NLCall.linkDel]
        else if !n.isDefault then
          match k.linkSetNsFdCaller with
          | Except.error e =>
            (Except.error e, n,
             [NLCall.linkByName i.dstName, NLCall.linkSetDown,
              NLCall.linkSetName i.srcName, NLCall.linkSetNsFdCaller])
          | Except.ok _ =>
            removeFinish n i
              [NLCall.linkByName i.dstName, NLCall.linkSetDown,
               NLCall.linkSetName i.srcName, NLCall.linkSetNsFdCaller]
        else
          removeFinish n i
            [NLCall.linkByName i.dstName, NLCall.linkSetDown, NLCall.linkSetName i.srcName]

/-- Go `Statistics` (lines 146 to 165): locate the device by destination
name (failure wrapped as a lookup error), fail when the kernel reports no
statistics object, otherwise return the snapshot copied field by field. -/
def Statistics (k : Kernel) (i : nwIface) :
    Except String InterfaceStatistics × List NLCall :=
  match k.linkByName i.dstName with
  | Except.error e =>
    (Except.error ("failed to retrieve the statistics for " ++ i.dstName ++
      " in netns " ++ i.nsPath ++ ": " ++ e), [NLCall.linkByName i.dstName])
  | Except.ok l =>
    match l.statistics with
    | none => (Except.error "no statistics were returned", [NLCall.linkByName i.dstName])
    | some s =>
      (Except.ok
        { rxBytes := s.rxBytes, txBytes := s.txBytes,
          rxPackets := s.rxPackets, txPackets := s.txPackets,
          rxDropped := s.rxDropped, txDropped := s.txDropped },
       [NLCall.linkByName i.dstName])

/-- Post-configuration tail of `AddInterface` (lines 270 to 292): bring
the link up with the bounded retry, install the routes, then append the
entity to the registry and trigger the IPv6-loopback reconciliation. -/
def addFinish (k : Kernel) (n : networkNamespace) (iface : Link) (i : nwIface) :
    Except String Unit × networkNamespace × List NLCall :=
  match linkUp k with
  | (Except.error e, utr) => (Except.error ("failed to set link up: " ++ e), n, utr)
  | (Except.ok _, utr) =>
    match setInterfaceRoutes k iface i with
    | (Except.error e, rtr) =>
      (Except.error ("error setting interface " ++ iface.name ++ " routes to " ++
        netsRepr i.routes ++ ": " ++ e), n, utr ++ rtr)
    | (Except.ok _, rtr) =>
      (Except.ok (),
       { n with iFaces := n.iFaces ++ [{ i with id := n.nextId }], nextId := n.nextId + 1 },
       utr ++ rtr ++ [NLCall.checkLoV6])

/-- Configuration stage of `AddInterface` (lines 244 to 268): re-locate
the device inside the namespace, set it down, run the configurator
pipeline; on a pipeline failure, best-effort rename the device back to
its source name and best-effort move it back to the caller namespace
(both outcomes only logged), and return the original pipeline error. -/
def addConfigure (k : Kernel) (n : networkNamespace) (i : nwIface) :
    Except String Unit × networkNamespace × List NLCall :=
  match k.linkByName i.srcName with
  | Except.error e =>
    (Except.error ("failed to get link by name " ++ i.srcName ++ ": " ++ e), n,
     [NLCall.linkByName i.srcName])
  | Except.ok iface =>
    match k.linkSetDown with
    | Except.error e =>
      (Except.error ("failed to set link down: " ++ e), n,
       [NLCall.linkByName i.srcName, NLCall.linkSetDown])
    | Except.ok _ =>
      match configureInterface k iface i with
      | (Except.error e, ctr) =>
        (Except.error e, n,
         NLCall.linkByName i.srcName :: NLCall.linkSetDown ::
           (ctr ++ [NLCall.linkSetName i.srcName, NLCall.linkSetNsFdCaller]))
      | (Except.ok _, ctr) =>
        match addFinish k n iface i with
        | (r, n2, ftr) =>
          (r, n2, NLCall.linkByName i.srcName :: NLCall.linkSetDown :: (ctr ++ ftr))

/-- Placement stage of `AddInterface` (lines 212 to 242): create the
bridge in place, or locate the host device and (for a non-default
namespace) move it into the sandbox namespace. -/
def addPlace (k : Kernel) (n : networkNamespace) (i : nwIface) :
    Except String Unit × networkNamespace × List NLCall :=
  if i.bridge then
    match k.linkAdd i.srcName with
    | Except.error e =>
      (Except.error ("failed to create bridge " ++ i.srcName ++ ": " ++ e), n,
       [NLCall.linkAdd i.srcName])
    | Except.ok _ =>
      match addConfigure k n i with
      | (r, n2, tr) => (r, n2, NLCall.linkAdd i.srcName :: tr)
  else
    match k.hostLinkByName i.srcName with
    | Except.error e =>
      (Except.error ("failed to get link by name " ++ i.srcName ++ ": " ++ e), n,
       [NLCall.hostLinkByName i.srcName])
    | Except.ok _ =>
      if !n.isDefault then
        match k.getFromPath n.path with
        | Except.error e =>
          (Except.error ("failed get network namespace " ++ n.path ++ ": " ++ e), n,
           [NLCall.hostLinkByName i.srcName, NLCall.getFromPath n.path])
        | Except.ok _ =>
          match k.hostLinkSetNsFd with
          | Except.error e =>
            (Except.error ("failed to set namespace on link " ++ i.srcName ++ ": " ++ e), n,
             [NLCall.hostLinkByName i.srcName, NLCall.getFromPath n.path,
              NLCall.hostLinkSetNsFd])
          | Except.ok _ =>
            match addConfigure k n i with
            | (r, n2, tr) =>
              (r, n2, NLCall.hostLinkByName i.srcName :: NLCall.getFromPath n.path ::
                NLCall.hostLinkSetNsFd :: tr)
      else
        match addConfigure k n i with
        | (r, n2, tr) => (r, n2, NLCall.hostLinkByName i.srcName :: tr)

/-- Modelled from the spec: the structured `Add` options of section 6.
`processInterfaceOptions` and the option constructors are not part of the
source file; per the spec they set the hardware address, the IPv4 and
IPv6 networks, the link-local addresses, the routes, the master source
name and the bridge flag of the entity being built. -/
structure IfaceOptions where
  mac : Option (List Nat) := none
  address : Option IPNet := none
  addressIPv6 : Option IPNet := none
  llAddrs : List IPNet := []
  routes : List IPNet := []
  master : String := ""
  bridge : Bool := false
deriving Repr

/-- Modelled from the spec: application of the recognized options to a
freshly built entity. -/
def processInterfaceOptions (i : nwIface) (o : IfaceOptions) : nwIface :=
  { i with mac := o.mac, address := o.address, addressIPv6 := o.addressIPv6,
           llAddrs := o.llAddrs, routes := o.routes, master := o.master,
           bridge := o.bridge }

/-- The entity built at the top of `AddInterface` (lines 183 to 188):
the fresh record with source name, prefix as provisional destination name
and namespace back-reference, with the options applied. -/
def buildIface (n : networkNamespace) (srcName dstPfx : String) (opts : IfaceOptions) :
    nwIface :=
  processInterfaceOptions
    { id := 0, srcName := srcName, dstName := dstPfx, master := "", dstMaster := "",
      mac := none, address := none, addressIPv6 := none, llAddrs := [], routes := [],
      bridge := false, nsPath := n.path } opts

/-- Go `AddInterface` (lines 182 to 293): build the entity from the options,
resolve the master (failing when absent), allocate the destination name
under the lock, then place, configure, activate and register. -/
def AddInterface (k : Kernel) (n : networkNamespace) (srcName dstPfx : String)
    (opts : IfaceOptions) : Except String Unit × networkNamespace × List NLCall :=
  let i0 : nwIface := buildIface n srcName dstPfx opts
  if i0.master = "" then
    match allocDstName n srcName dstPfx with
    | (dn, n1) => addPlace k n1 { i0 with dstName := dn }
  else
    match findDst n i0.master true with
    | dm =>
      if dm = "" then
        (Except.error ("could not find an appropriate master " ++ i0.master ++
          " for " ++ i0.srcName), n, [])
      else
        match allocDstName n srcName dstPfx with
        | (dn, n1) => addPlace k n1 { i0 with dstMaster := dm, dstName := dn }

/-- The conflict condition in the words of the spec (section 4.2) and of
claim C1, used to compare against the behaviour of the code: the
candidate network contains, or is contained by, the destination of some
existing route (nil destinations are not conflicts). -/
def specRouteConflict (routes : List (Option IPNet)) (address : IPNet) : Bool :=
  routes.any fun r =>
    match r with
    | none => false
    | some d => d.containsIP address.width address.ip || address.containsIP d.width d.ip

/-- Concatenated traces of a configurator list when every step runs. -/
def stepTraces (k : Kernel) (l : Link) (i : nwIface) :
    List ((Kernel → Link → nwIface → Except String Unit × List NLCall) × String) →
    List NLCall
  | [] => []
  | s :: rest => (s.1 k l i).2 ++ stepTraces k l i rest

/-- A sequence of destination-name allocations: each element of `calls`
is a (source name, destination prefix) pair, fed to the allocator in
order; the returned list holds the allocated destination names. -/
def allocSeq (n : networkNamespace) : List (String × String) → List String × networkNamespace
  | [] => ([], n)
  | c :: rest =>
    match allocDstName n c.1 c.2 with
    | (name, n1) =>
      match allocSeq n1 rest with
      | (names, n2) => (name :: names, n2)

/-- Number of calls in a sequence that use destination prefix `p`. -/
def countPfx (calls : List (String × String)) (p : String) : Nat :=
  (calls.filter fun c => c.2 = p).length

/-- Numeric value of a decimal digit character. -/
def charVal (c : Char) : Nat := c.toNat - 48

/-- Positional value of a list of decimal digit characters. -/
def digitsVal : List Char → Nat
  | [] => 0
  | c :: cs => charVal c * 10 ^ cs.length + digitsVal cs

/-! Heap model for the reference-typed accessors

The Go accessors of `nwIface` (lines 63 to 91) return pointers and
slices.  To state claims about defensive copying and aliasing we model
the heap explicitly: `Store` holds the MAC byte arrays and the `IPNet`
values, and the reference-typed fields of the entity hold addresses into
it.  An allocation appends a cell at the end of the heap. -/

/-- The explicit heap: MAC byte arrays and IPNet cells, addressed by
index. -/
structure Store where
  macHeap : List (List Nat)
  netHeap : List IPNet
deriving Repr

/-- Default IPNet value for out-of-range reads. -/
def net0 : IPNet := { width := 0, ip := 0, prefixLen := 0 }

/-- Read a MAC cell. -/
def Store.readMac (s : Store) (a : Nat) : List Nat := s.macHeap.getD a []

/-- Overwrite a MAC cell (mutation through a pointer). -/
def Store.writeMac (s : Store) (a : Nat) (v : List Nat) : Store :=
  { s with macHeap := s.macHeap.set a v }

/-- Read an IPNet cell. -/
def Store.readNet (s : Store) (a : Nat) : IPNet := s.netHeap.getD a net0

/-- Overwrite an IPNet cell (mutation through a pointer). -/
def Store.writeNet (s : Store) (a : Nat) (v : IPNet) : Store :=
  { s with netHeap := s.netHeap.set a v }

/-- Allocate a fresh MAC cell holding a copy of the cell at `addr`. -/
def macCopyAlloc (s : Store) (addr : Nat) : Nat × Store :=
  (s.macHeap.length, { s with macHeap := s.macHeap ++ [s.macHeap.getD addr []] })

/-- Allocate a fresh IPNet cell holding a copy of the cell at `addr`. -/
def netCopyAlloc (s : Store) (addr : Nat) : Nat × Store :=
  (s.netHeap.length, { s with netHeap := s.netHeap ++ [s.netHeap.getD addr net0] })

/-- Modelled from the spec: `types.GetMacCopy` (a copy-safety helper
outside this source file; the spec requires accessors to return an
independent copy).  A nil pointer yields nil, otherwise a fresh cell with
the same bytes. -/
def GetMacCopy (s : Store) (a : Option Nat) : Option Nat × Store :=
  match a with
  | none => (none, s)
  | some addr =>
    match macCopyAlloc s addr with
    | (fresh, s1) => (some fresh, s1)

/-- Modelled from the spec: `types.GetIPNetCopy` (a copy-safety helper
outside this source file).  A nil pointer yields nil, otherwise a fresh
cell with the same value. -/
def GetIPNetCopy (s : Store) (a : Option Nat) : Option Nat × Store :=
  match a with
  | none => (none, s)
  | some addr =>
    match netCopyAlloc s addr with
    | (fresh, s1) => (some fresh, s1)

/-- The reference-typed fields of `nwIface`, as heap addresses: `mac`,
`address` and `addressIPv6` are nilable pointers; `llAddrs` and `routes`
are slices of pointers. -/
structure nwIfaceRef where
  mac : Option Nat
  address : Option Nat
  addressIPv6 : Option Nat
  llAddrs : List Nat
  routes : List Nat
deriving Repr

/-- Go `MacAddress` (lines 63 to 65): returns `types.GetMacCopy(i.mac)`. -/
def nwIfaceRef.MacAddress (i : nwIfaceRef) (s : Store) : Option Nat × Store :=
  GetMacCopy s i.mac

/-- Go `Address` (lines 67 to 70): returns `types.GetIPNetCopy(i.address)`. -/
def nwIfaceRef.Address (i : nwIfaceRef) (s : Store) : Option Nat × Store :=
  GetIPNetCopy s i.address

/-- Go `AddressIPv6` (lines 72 to 75): returns
`types.GetIPNetCopy(i.addressIPv6)`. -/
def nwIfaceRef.AddressIPv6 (i : nwIfaceRef) (s : Store) : Option Nat × Store :=
  GetIPNetCopy s i.addressIPv6

/-- Go `LinkLocalAddresses` (lines 79 to 81): returns the stored slice
itself, with no copy of the slice or of its elements. -/
def nwIfaceRef.LinkLocalAddresses (i : nwIfaceRef) (s : Store) : List Nat × Store :=
  (i.llAddrs, s)

/-- The copying loop of `Routes`: one `GetIPNetCopy` per element, in
order. -/
def copyNets (s : Store) : List Nat → List Nat × Store
  | [] => ([], s)
  | a :: rest =>
    match netCopyAlloc s a with
    | (fresh, s1) =>
      match copyNets s1 rest with
      | (l, s2) => (fresh :: l, s2)

/-- Go `Routes` (lines 83 to 91): returns a fresh slice of fresh copies of
the stored routes. -/
def nwIfaceRef.Routes (i : nwIfaceRef) (s : Store) : List Nat × Store :=
  copyNets s i.routes

/-! Concrete fixtures for witnesses -/

/-- A concrete statistics record. -/
def stats0 : InterfaceStatistics :=
  { rxBytes := 11, txBytes := 22, rxPackets := 3, txPackets := 4,
    rxDropped := 1, txDropped := 2 }

/-- A concrete located link. -/
def link0 : Link := { name := "veth0", index := 5, statistics := some stats0 }

/-- A kernel stub on which every operation succeeds. -/
def kOK : Kernel :=
  { hostLinkByName := fun _ => Except.ok link0
    getFromPath := fun _ => Except.ok ()
    hostLinkSetNsFd := Except.ok ()
    linkAdd := fun _ => Except.ok ()
    linkByName := fun _ => Except.ok link0
    linkSetDown := Except.ok ()
    linkSetName := fun _ => Except.ok ()
    linkSetHardwareAddr := fun _ => Except.ok ()
    routeList := fun _ => Except.ok []
    addrAdd := fun _ _ => Except.ok ()
    setIPv6 := fun _ _ _ => Except.ok ()
    linkSetMaster := fun _ => Except.ok ()
    linkSetUp := fun _ => Except.ok ()
    routeAdd := fun _ => Except.ok ()
    linkSetNsFdCaller := Except.ok ()
    linkDel := Except.ok () }

/-- A concrete non-default namespace with an empty registry. -/
def ns0 : networkNamespace :=
  { path := "/var/run/netns/ns0", isDefault := false, iFaces := [],
    nextIfIndex := [], nextId := 0 }

/-- A concrete default namespace. -/
def nsDefault : networkNamespace :=
  { path := "", isDefault := true, iFaces := [], nextIfIndex := [], nextId := 0 }

/-- A concrete entity with no optional configuration. -/
def iface0 : nwIface :=
  { id := 0, srcName := "veth0", dstName := "eth0", master := "", dstMaster := "",
    mac := none, address := none, addressIPv6 := none, llAddrs := [], routes := [],
    bridge := false, nsPath := "/var/run/netns/ns0" }

/-- The network 10.0.0.0/24. -/
def net10 : IPNet := { width := 32, ip := 167772160, prefixLen := 24 }

/-- The network 10.0.0.5/24 (host 10.0.0.5 with a /24 mask). -/
def net10host5 : IPNet := { width := 32, ip := 167772165, prefixLen := 24 }

/-- The network 192.168.1.5/24. -/
def net192 : IPNet := { width := 32, ip := 3232235781, prefixLen := 24 }

/-- A kernel stub whose IPv4 and IPv6 routing tables hold one route to
10.0.0.0/24. -/
def kRoutes10 : Kernel := { kOK with routeList := fun _ => Except.ok [some net10] }

/-- The allocation sequence of the C2 counterexample: one call with
prefix `a1`, then eleven calls with prefix `a` (all with distinct
prefixes between consecutive distinct values; the first call yields
`a10`, the twelfth call yields `a10` again). -/
def c2calls : List (String × String) :=
  ("s", "a1") :: List.replicate 11 ("s", "a")

/-- A sequence of `AddInterface` calls with no options: each element of
`calls` is a (source name, destination prefix) pair; the registry is
threaded through. -/
def addSeq (k : Kernel) (n : networkNamespace) : List (String × String) → networkNamespace
  | [] => n
  | c :: rest => addSeq k (AddInterface k n c.1 c.2 {}).2.1 rest

/-- The destination names of the registered entities. -/
def dstNames (n : networkNamespace) : List String :=
  n.iFaces.map nwIface.dstName

/-! Theorems -/

/-- The conflict scan succeeds exactly when no containment conflict (in
the sense of the spec predicate) exists. -/
theorem routeConflictScan_ok_iff (a : IPNet) (routes : List (Option IPNet)) :
    routeConflictScan a routes = Except.ok () ↔ specRouteConflict routes a = false := by
  induction routes with
  | nil => simp [routeConflictScan, specRouteConflict]
  | cons r rest ih =>
    cases r with
    | none => simpa [routeConflictScan, specRouteConflict, List.any_cons] using ih
    | some d =>
      by_cases h : (d.containsIP a.width a.ip || a.containsIP d.width d.ip) = true
      · simp [routeConflictScan, specRouteConflict, List.any_cons, h]
      · simp only [Bool.not_eq_true] at h
        simpa [routeConflictScan, specRouteConflict, List.any_cons, h] using ih

/-- A containment conflict makes the scan return an error. -/
theorem routeConflictScan_err_of_spec (a : IPNet) (routes : List (Option IPNet))
    (h : specRouteConflict routes a = true) :
    ∃ e, routeConflictScan a routes = Except.error e := by
  cases hs : routeConflictScan a routes with
  | ok u =>
    cases u
    rw [routeConflictScan_ok_iff] at hs
    rw [hs] at h
    cases h
  | error e => exact ⟨e, rfl⟩

/-- C1: when an IPv4 or IPv6 address is applied, the namespace routes for
that family are fetched first and the conflict check fails if and only if
the candidate network contains, or is contained by, the destination of
some existing route; on a conflict the step returns the error with no
`AddrAdd` call made, so no address state for that family results, while
without a conflict the address is added. -/
theorem C1_route_conflict_check (k : Kernel) (l : Link) (i : nwIface) (a : IPNet)
    (routes : List (Option IPNet)) :
    (∀ family, k.routeList family = Except.ok routes →
      ((checkRouteConflict k a family).1.isOk = false ↔ specRouteConflict routes a = true))
    ∧
    (i.address = some a → k.routeList FAMILY_V4 = Except.ok routes →
      (specRouteConflict routes a = true →
        (setInterfaceIP k l i).1.isOk = false ∧
        (setInterfaceIP k l i).2 = [NLCall.routeList FAMILY_V4])
      ∧
      (specRouteConflict routes a = false → k.addrAdd a false = Except.ok () →
        setInterfaceIP k l i =
          (Except.ok (), [NLCall.routeList FAMILY_V4, NLCall.addrAdd a false])))
    ∧
    (i.addressIPv6 = some a → k.routeList FAMILY_V6 = Except.ok routes →
      (specRouteConflict routes a = true →
        (setInterfaceIPv6 k l i).1.isOk = false ∧
        (setInterfaceIPv6 k l i).2 = [NLCall.routeList FAMILY_V6])
      ∧
      (specRouteConflict routes a = false → k.setIPv6 i.nsPath i.dstName true = Except.ok () →
        k.addrAdd a true = Except.ok () →
        setInterfaceIPv6 k l i =
          (Except.ok (), [NLCall.routeList FAMILY_V6,
            NLCall.setIPv6 i.nsPath i.dstName true, NLCall.addrAdd a true]))) := by
  refine ⟨?_, ?_, ?_⟩
  · intro family hk
    constructor
    · intro hko
      by_contra hc
      simp only [Bool.not_eq_true] at hc
      have hscan := routeConflictScan_ok_iff a routes |>.2 hc
      simp [checkRouteConflict, hk, hscan, Except.isOk, Except.toBool] at hko
    · intro hc
      obtain ⟨e, he⟩ := routeConflictScan_err_of_spec a routes hc
      simp [checkRouteConflict, hk, he, Except.isOk, Except.toBool]
  · intro ha hk
    constructor
    · intro hc
      obtain ⟨e, he⟩ := routeConflictScan_err_of_spec a routes hc
      simp [setInterfaceIP, checkRouteConflict, ha, hk, he, Except.isOk, Except.toBool]
    · intro hc hadd
      have hscan := routeConflictScan_ok_iff a routes |>.2 hc
      simp [setInterfaceIP, checkRouteConflict, ha, hk, hscan, hadd]
  · intro ha hk
    constructor
    · intro hc
      obtain ⟨e, he⟩ := routeConflictScan_err_of_spec a routes hc
      simp [setInterfaceIPv6, checkRouteConflict, ha, hk, he, Except.isOk, Except.toBool]
    · intro hc hv6 hadd
      have hscan := routeConflictScan_ok_iff a routes |>.2 hc
      simp [setInterfaceIPv6, checkRouteConflict, ha, hk, hscan, hv6, hadd]

/-- C1 witness: against an existing route to 10.0.0.0/24, applying IPv4
address 10.0.0.5/24 fails before any `AddrAdd`, while 192.168.1.5/24 is
added successfully. -/
theorem C1_route_conflict_check_witness :
    (setInterfaceIP kRoutes10 link0 { iface0 with address := some net10host5 }).1.isOk = false ∧
    (setInterfaceIP kRoutes10 link0 { iface0 with address := some net10host5 }).2 =
      [NLCall.routeList FAMILY_V4] ∧
    setInterfaceIP kRoutes10 link0 { iface0 with address := some net192 } =
      (Except.ok (), [NLCall.routeList FAMILY_V4, NLCall.addrAdd net192 false]) := by
  have h := C1_route_conflict_check kRoutes10 link0
    { iface0 with address := some net10host5 } net10host5 [some net10]
  have h2 := C1_route_conflict_check kRoutes10 link0
    { iface0 with address := some net192 } net192 [some net10]
  refine ⟨((h.2.1 rfl rfl).1 (by decide)).1, ((h.2.1 rfl rfl).1 (by decide)).2, ?_⟩
  exact (h2.2.1 rfl rfl).2 (by decide) rfl

/-- Bumping a prefix counter increments its value. -/
theorem lookupCount_bump_self (m : List (String × Nat)) (p : String) :
    lookupCount (bumpCount m p) p = lookupCount m p + 1 := by
  induction m with
  | nil => simp [bumpCount, lookupCount]
  | cons kv rest ih =>
    by_cases h : kv.1 = p
    · simp [bumpCount, lookupCount, h]
    · simp [bumpCount, lookupCount, h, ih]

/-- Bumping a prefix counter leaves other prefixes untouched. -/
theorem lookupCount_bump_other (m : List (String × Nat)) (p q : String) (h : q ≠ p) :
    lookupCount (bumpCount m p) q = lookupCount m q := by
  have hpq : ¬ (p = q) := fun hh => h hh.symm
  induction m with
  | nil => simp [bumpCount, lookupCount, hpq]
  | cons kv rest ih =>
    by_cases hk : kv.1 = p
    · simp [bumpCount, lookupCount, hk, hpq]
    · simp [bumpCount, lookupCount, hk, ih]

/-- The numeric value of a digit character produced by `Nat.digitChar`. -/
theorem charVal_digitChar : ∀ d, d < 10 → charVal (Nat.digitChar d) = d := by decide

/-- With sufficient fuel, the value of the decimal digits produced by
`Nat.toDigitsCore` recovers the input. -/
theorem digitsVal_toDigitsCore :
    ∀ (f n : Nat) (ds : List Char), n < f →
      digitsVal (Nat.toDigitsCore 10 f n ds) = n * 10 ^ ds.length + digitsVal ds := by
  intro f
  induction f with
  | zero => intro n ds h; exact absurd h (Nat.not_lt_zero n)
  | succ f ih =>
    intro n ds h
    simp only [Nat.toDigitsCore]
    by_cases h0 : n / 10 = 0
    · have hn10 : n < 10 := by omega
      simp only [h0, if_true, digitsVal]
      rw [Nat.mod_eq_of_lt hn10, charVal_digitChar n hn10]
    · have hlt : n / 10 < f := by omega
      simp only [h0, if_false]
      rw [ih (n / 10) (Nat.digitChar (n % 10) :: ds) hlt]
      have hmod : n % 10 < 10 := Nat.mod_lt _ (by norm_num)
      simp only [digitsVal, List.length_cons, charVal_digitChar _ hmod]
      have hdm : 10 * (n / 10) + n % 10 = n := Nat.div_add_mod n 10
      conv_rhs => rw [← hdm]
      ring

/-- The decimal digits of `Nat.toDigits` evaluate back to the number. -/
theorem digitsVal_toDigits (n : Nat) : digitsVal (Nat.toDigits 10 n) = n := by
  rw [Nat.toDigits, digitsVal_toDigitsCore (n + 1) n [] (Nat.lt_succ_self n)]
  simp [digitsVal]

/-- Decimal rendering of naturals is injective. -/
theorem natRepr_injective (a b : Nat) (h : Nat.repr a = Nat.repr b) : a = b := by
  have hd : (Nat.repr a).data = (Nat.repr b).data := by rw [h]
  rw [Nat.repr, Nat.repr] at hd
  simp only [List.asString] at hd
  have hv := congrArg digitsVal hd
  rwa [digitsVal_toDigits, digitsVal_toDigits] at hv

/-- Left cancellation for string append. -/
theorem string_append_cancel (p s t : String) (h : p ++ s = p ++ t) : s = t := by
  have hd := congrArg String.data h
  simp only [String.data_append] at hd
  exact congrArg String.mk (List.append_cancel_left hd)

/-- Allocation does not change the default-namespace flag. -/
theorem allocDstName_isDefault (n : networkNamespace) (s p : String) :
    ((allocDstName n s p).2).isDefault = n.isDefault := by
  rw [allocDstName]
  split <;> rfl

/-- Allocation does not change the registered collection. -/
theorem allocDstName_iFaces (n : networkNamespace) (s p : String) :
    ((allocDstName n s p).2).iFaces = n.iFaces := by
  rw [allocDstName]
  split <;> rfl

/-- Allocation does not change the identity allocator. -/
theorem allocDstName_nextId (n : networkNamespace) (s p : String) :
    ((allocDstName n s p).2).nextId = n.nextId := by
  rw [allocDstName]
  split <;> rfl

/-- On a non-default namespace, the allocator returns the prefix with the
current counter value appended and bumps that counter. -/
theorem allocDstName_nondefault (n : networkNamespace) (s p : String)
    (h : n.isDefault = false) :
    allocDstName n s p =
      (p ++ Nat.repr (lookupCount n.nextIfIndex p),
       { n with nextIfIndex := bumpCount n.nextIfIndex p }) := by
  simp [allocDstName, h]

/-- Prefix counting distributes over cons. -/
theorem countPfx_cons (c : String × String) (l : List (String × String)) (p : String) :
    countPfx (c :: l) p = (if c.2 = p then 1 else 0) + countPfx l p := by
  by_cases h : c.2 = p <;> simp [countPfx, h, Nat.add_comm]

/-- Prefix counting distributes over append. -/
theorem countPfx_append (l1 l2 : List (String × String)) (p : String) :
    countPfx (l1 ++ l2) p = countPfx l1 p + countPfx l2 p := by
  simp [countPfx, List.filter_append]

/-- An allocation sequence returns one name per call. -/
theorem allocSeq_length (calls : List (String × String)) (n : networkNamespace) :
    (allocSeq n calls).1.length = calls.length := by
  induction calls generalizing n with
  | nil => rfl
  | cons c rest ih =>
    cases hal : allocDstName n c.1 c.2 with
    | mk dn n1 =>
      cases hs : allocSeq n1 rest with
      | mk names n2 => simp [allocSeq, hal, hs, ← ih n1, hs]

/-- On a non-default namespace, the j-th allocated name is the j-th
prefix followed by the initial counter value of that prefix plus the
number of prior calls in the sequence using the same prefix (with fresh
counters this is the zero-based count of prior allocations). -/
theorem allocSeq_name :
    ∀ (calls : List (String × String)) (n : networkNamespace), n.isDefault = false →
      ∀ (j : Nat) (c : String × String), calls.get? j = some c →
        (allocSeq n calls).1.get? j =
          some (c.2 ++ Nat.repr (lookupCount n.nextIfIndex c.2 +
            countPfx (calls.take j) c.2)) := by
  intro calls
  induction calls with
  | nil => intro n h j c hc; cases hc
  | cons c0 rest ih =>
    intro n h j c hc
    cases j with
    | zero =>
      rw [List.get?] at hc
      cases hc
      simp [allocSeq, allocDstName_nondefault n c0.1 c0.2 h, countPfx]
    | succ j =>
      rw [List.get?] at hc
      have h1 : ({ n with nextIfIndex := bumpCount n.nextIfIndex c0.2 } :
          networkNamespace).isDefault = false := h
      have hih := ih { n with nextIfIndex := bumpCount n.nextIfIndex c0.2 } h1 j c hc
      have harith : lookupCount (bumpCount n.nextIfIndex c0.2) c.2 +
          countPfx (List.take j rest) c.2 =
          lookupCount n.nextIfIndex c.2 + countPfx (List.take (j + 1) (c0 :: rest)) c.2 := by
        by_cases hpp : c0.2 = c.2
        · rw [List.take_succ_cons, countPfx_cons, if_pos hpp, hpp, lookupCount_bump_self]
          omega
        · rw [List.take_succ_cons, countPfx_cons, if_neg hpp,
            lookupCount_bump_other _ _ _ (fun hh => hpp hh.symm)]
          omega
      rw [harith] at hih
      cases hs : allocSeq { n with nextIfIndex := bumpCount n.nextIfIndex c0.2 } rest with
      | mk names n2 =>
        rw [hs] at hih
        simp only [allocSeq, allocDstName_nondefault n c0.1 c0.2 h, hs]
        rw [List.get?]
        exact hih

/-- Two allocations with the same prefix in one sequence never return the
same name: the counter is monotonic, so the numeric suffix of the later
allocation is strictly larger. -/
theorem allocSeq_same_pfx_unique (calls : List (String × String)) (n : networkNamespace)
    (h : n.isDefault = false) (i j : Nat) (ci cj : String × String)
    (hij : i < j) (hi : calls.get? i = some ci) (hj : calls.get? j = some cj)
    (hp : ci.2 = cj.2) :
    (allocSeq n calls).1.get? i ≠ (allocSeq n calls).1.get? j := by
  rw [allocSeq_name calls n h i ci hi, allocSeq_name calls n h j cj hj]
  intro hEq
  have hS := Option.some.inj hEq
  rw [hp] at hS
  have hnum := natRepr_injective _ _ (string_append_cancel _ _ _ hS)
  have hcount : countPfx (List.take i calls) cj.2 < countPfx (List.take j calls) cj.2 := by
    have htake : List.take j calls =
        List.take (i + 1) calls ++ (List.drop (i + 1) calls).take (j - (i + 1)) := by
      rw [← List.take_add]
      congr 1
      omega
    have hsucc : List.take (i + 1) calls = List.take i calls ++ [ci] := by
      have hi2 : calls[i]? = some ci := by rw [← List.get?_eq_getElem?]; exact hi
      rw [List.take_succ, hi2]
      rfl
    have hone : countPfx [ci] cj.2 = 1 := by simp [countPfx, hp]
    rw [htake, countPfx_append, hsucc, countPfx_append, hone]
    omega
  omega

/-- Structure of the post-configuration tail: on success exactly the new
entity is appended to the collection; on failure the registry is returned
unchanged. -/
theorem addFinish_ns (k : Kernel) (n : networkNamespace) (l : Link) (i : nwIface) :
    ((addFinish k n l i).1.isOk = true ∧
      (addFinish k n l i).2.1 =
        { n with iFaces := n.iFaces ++ [{ i with id := n.nextId }],
                 nextId := n.nextId + 1 })
    ∨ ((addFinish k n l i).1.isOk = false ∧ (addFinish k n l i).2.1 = n) := by
  cases hlu : linkUp k with
  | mk r utr =>
    cases r with
    | error e => right; simp [addFinish, hlu, Except.isOk, Except.toBool]
    | ok u =>
      cases hsr : setInterfaceRoutes k l i with
      | mk r2 rtr =>
        cases r2 with
        | error e => right; simp [addFinish, hlu, hsr, Except.isOk, Except.toBool]
        | ok u2 => left; simp [addFinish, hlu, hsr, Except.isOk, Except.toBool]

/-- Structure of the configuration stage: on success exactly the new
entity is appended; on failure the registry is returned unchanged. -/
theorem addConfigure_ns (k : Kernel) (n : networkNamespace) (i : nwIface) :
    ((addConfigure k n i).1.isOk = true ∧
      (addConfigure k n i).2.1 =
        { n with iFaces := n.iFaces ++ [{ i with id := n.nextId }],
                 nextId := n.nextId + 1 })
    ∨ ((addConfigure k n i).1.isOk = false ∧ (addConfigure k n i).2.1 = n) := by
  cases hln : k.linkByName i.srcName with
  | error e => right; simp [addConfigure, hln, Except.isOk, Except.toBool]
  | ok l =>
    cases hd : k.linkSetDown with
    | error e => right; simp [addConfigure, hln, hd, Except.isOk, Except.toBool]
    | ok u =>
      cases hc : configureInterface k l i with
      | mk rc ctr =>
        cases rc with
        | error e => right; simp [addConfigure, hln, hd, hc, Except.isOk, Except.toBool]
        | ok u2 =>
          have h := addFinish_ns k n l i
          cases haf : addFinish k n l i with
          | mk rf rest =>
            cases rest with
            | mk nf ftr =>
              rw [haf] at h
              rcases h with ⟨h1, h2⟩ | ⟨h1, h2⟩
              · left
                constructor
                · simpa [addConfigure, hln, hd, hc, haf] using h1
                · simpa [addConfigure, hln, hd, hc, haf] using h2
              · right
                constructor
                · simpa [addConfigure, hln, hd, hc, haf] using h1
                · simpa [addConfigure, hln, hd, hc, haf] using h2

/-- Structure of the placement stage: on success exactly the new entity
is appended; on failure the registry is returned unchanged. -/
theorem addPlace_ns (k : Kernel) (n : networkNamespace) (i : nwIface) :
    ((addPlace k n i).1.isOk = true ∧
      (addPlace k n i).2.1 =
        { n with iFaces := n.iFaces ++ [{ i with id := n.nextId }],
                 nextId := n.nextId + 1 })
    ∨ ((addPlace k n i).1.isOk = false ∧ (addPlace k n i).2.1 = n) := by
  have hcfg := addConfigure_ns k n i
  cases hac : addConfigure k n i with
  | mk rc rest =>
    cases rest with
    | mk nc ctr =>
      rw [hac] at hcfg
      by_cases hb : i.bridge
      · cases hla : k.linkAdd i.srcName with
        | error e => right; simp [addPlace, hb, hla, Except.isOk, Except.toBool]
        | ok u =>
          rcases hcfg with ⟨h1, h2⟩ | ⟨h1, h2⟩
          · left
            refine ⟨by simpa [addPlace, hb, hla, hac] using h1,
                    by simpa [addPlace, hb, hla, hac] using h2⟩
          · right
            refine ⟨by simpa [addPlace, hb, hla, hac] using h1,
                    by simpa [addPlace, hb, hla, hac] using h2⟩
      · cases hhl : k.hostLinkByName i.srcName with
        | error e => right; simp [addPlace, hb, hhl, Except.isOk, Except.toBool]
        | ok hostIface =>
          by_cases hdef : n.isDefault
          · rcases hcfg with ⟨h1, h2⟩ | ⟨h1, h2⟩
            · left
              refine ⟨by simpa [addPlace, hb, hhl, hdef, hac] using h1,
                      by simpa [addPlace, hb, hhl, hdef, hac] using h2⟩
            · right
              refine ⟨by simpa [addPlace, hb, hhl, hdef, hac] using h1,
                      by simpa [addPlace, hb, hhl, hdef, hac] using h2⟩
          · cases hgp : k.getFromPath n.path with
            | error e =>
              right
              simp [addPlace, hb, hhl, hdef, hgp, Except.isOk, Except.toBool]
            | ok u2 =>
              cases hsf : k.hostLinkSetNsFd with
              | error e =>
                right
                simp [addPlace, hb, hhl, hdef, hgp, hsf, Except.isOk, Except.toBool]
              | ok u3 =>
                rcases hcfg with ⟨h1, h2⟩ | ⟨h1, h2⟩
                · left
                  refine ⟨by simpa [addPlace, hb, hhl, hdef, hgp, hsf, hac] using h1,
                          by simpa [addPlace, hb, hhl, hdef, hgp, hsf, hac] using h2⟩
                · right
                  refine ⟨by simpa [addPlace, hb, hhl, hdef, hgp, hsf, hac] using h1,
                          by simpa [addPlace, hb, hhl, hdef, hgp, hsf, hac] using h2⟩

/-- Structure of `AddInterface` without a master option: on success the
entity (with its allocated destination name and fresh identity) is
appended to the collection of the allocator-updated registry; on failure
the allocator-updated registry is returned with the collection
untouched. -/
theorem AddInterface_ns (k : Kernel) (n : networkNamespace) (s p : String)
    (o : IfaceOptions) (hm : o.master = "") :
    ((AddInterface k n s p o).1.isOk = true ∧
      (AddInterface k n s p o).2.1 =
        { (allocDstName n s p).2 with
            iFaces := ((allocDstName n s p).2).iFaces ++
              [{ buildIface n s p o with
                  dstName := (allocDstName n s p).1,
                  id := ((allocDstName n s p).2).nextId }],
            nextId := ((allocDstName n s p).2).nextId + 1 })
    ∨ ((AddInterface k n s p o).1.isOk = false ∧
        (AddInterface k n s p o).2.1 = (allocDstName n s p).2) := by
  have hmb : (buildIface n s p o).master = "" := hm
  cases hal : allocDstName n s p with
  | mk dn n1 =>
    rcases addPlace_ns k n1 { buildIface n s p o with dstName := dn } with
      ⟨h1, h2⟩ | ⟨h1, h2⟩
    · left
      refine ⟨by simpa [AddInterface, hmb, hal] using h1, ?_⟩
      have hg : (AddInterface k n s p o).2.1 =
          (addPlace k n1 { buildIface n s p o with dstName := dn }).2.1 := by
        simp [AddInterface, hmb, hal]
      rw [hg, h2]
    · right
      refine ⟨by simpa [AddInterface, hmb, hal] using h1, ?_⟩
      have hg : (AddInterface k n s p o).2.1 =
          (addPlace k n1 { buildIface n s p o with dstName := dn }).2.1 := by
        simp [AddInterface, hmb, hal]
      rw [hg, h2]

/-- A failed `AddInterface` never changes the registered collection. -/
theorem AddInterface_error_iFaces (k : Kernel) (n : networkNamespace) (s p : String)
    (o : IfaceOptions) (h : (AddInterface k n s p o).1.isOk = false) :
    (AddInterface k n s p o).2.1.iFaces = n.iFaces := by
  have hfib := allocDstName_iFaces n s p
  by_cases hm : (buildIface n s p o).master = ""
  · cases hal : allocDstName n s p with
    | mk dn n1 =>
      rw [hal] at hfib
      rcases addPlace_ns k n1 { buildIface n s p o with dstName := dn } with
        ⟨h1, _⟩ | ⟨_, h2⟩
      · exfalso
        have ht : (AddInterface k n s p o).1.isOk = true := by
          simpa [AddInterface, hm, hal] using h1
        rw [ht] at h
        cases h
      · have hns : (AddInterface k n s p o).2.1 = n1 := by
          simpa [AddInterface, hm, hal] using h2
        rw [hns]
        exact hfib
  · by_cases hf : findDst n (buildIface n s p o).master true = ""
    · simp [AddInterface, hm, hf]
    · cases hal : allocDstName n s p with
      | mk dn n1 =>
        rw [hal] at hfib
        rcases addPlace_ns k n1
            { buildIface n s p o with
                dstMaster := findDst n (buildIface n s p o).master true,
                dstName := dn } with ⟨h1, _⟩ | ⟨_, h2⟩
        · exfalso
          have ht : (AddInterface k n s p o).1.isOk = true := by
            simpa [AddInterface, hm, hf, hal] using h1
          rw [ht] at h
          cases h
        · have hns : (AddInterface k n s p o).2.1 = n1 := by
            simpa [AddInterface, hm, hf, hal] using h2
          rw [hns]
          exact hfib

/-- C2 counterexample: destination names are NOT unique across every
sequence of Add calls.  On the empty non-default namespace ns0, an
`AddInterface` with prefix `a1` yields destination name `a10` (counter
0); after ten more calls with prefix `a`, the eleventh `a`-call carries
counter 10 and also yields `a10`.  All twelve calls succeed, yet the
registered destination names contain a duplicate. -/
theorem C2_counterexample :
    ns0.isDefault = false ∧
    (dstNames (addSeq kOK ns0 c2calls)).length = 12 ∧
    (dstNames (addSeq kOK ns0 c2calls)).get? 0 = some "a10" ∧
    (dstNames (addSeq kOK ns0 c2calls)).get? 11 = some "a10" ∧
    ¬ (dstNames (addSeq kOK ns0 c2calls)).Nodup := by
  exact ⟨rfl, by decide, by decide, by decide, by decide⟩

/-- C2 (amended): in the default namespace the destination name equals
the source name regardless of the prefix (and nothing else changes);
otherwise the destination name is the prefix concatenated with the
per-prefix counter, which is then incremented; across a sequence of
allocations the name of the j-th call is its prefix followed by the
initial counter value plus the zero-based count of prior allocations for
that prefix, and two allocations sharing a prefix never return the same
name (the counter is monotonic and a suffix is never reused for the same
prefix); every successful `AddInterface` registers exactly its entity
carrying the allocated name.  (Uniqueness across calls with different
prefixes does not hold; see the counterexample.) -/
theorem C2_dst_name_allocation :
    (∀ (n : networkNamespace) (s p : String), n.isDefault = true →
      allocDstName n s p = (s, n))
    ∧
    (∀ (n : networkNamespace) (s p : String), n.isDefault = false →
      (allocDstName n s p).1 = p ++ Nat.repr (lookupCount n.nextIfIndex p) ∧
      lookupCount ((allocDstName n s p).2).nextIfIndex p =
        lookupCount n.nextIfIndex p + 1)
    ∧
    (∀ (calls : List (String × String)) (n : networkNamespace), n.isDefault = false →
      ∀ (j : Nat) (c : String × String), calls.get? j = some c →
        (allocSeq n calls).1.get? j =
          some (c.2 ++ Nat.repr (lookupCount n.nextIfIndex c.2 +
            countPfx (calls.take j) c.2)))
    ∧
    (∀ (calls : List (String × String)) (n : networkNamespace), n.isDefault = false →
      ∀ (i j : Nat) (ci cj : String × String), i < j →
        calls.get? i = some ci → calls.get? j = some cj → ci.2 = cj.2 →
        (allocSeq n calls).1.get? i ≠ (allocSeq n calls).1.get? j)
    ∧
    (∀ (k : Kernel) (n : networkNamespace) (s p : String) (o : IfaceOptions),
      o.master = "" → (AddInterface k n s p o).1.isOk = true →
      (AddInterface k n s p o).2.1.iFaces =
        n.iFaces ++ [{ buildIface n s p o with
                        dstName := (allocDstName n s p).1,
                        id := n.nextId }]) := by
  refine ⟨?_, ?_, allocSeq_name, ?_, ?_⟩
  · intro n s p h
    simp [allocDstName, h]
  · intro n s p h
    exact ⟨by simp [allocDstName_nondefault n s p h],
           by simp [allocDstName_nondefault n s p h, lookupCount_bump_self]⟩
  · intro calls n h i j ci cj hij hi hj hp
    exact allocSeq_same_pfx_unique calls n h i j ci cj hij hi hj hp
  · intro k n s p o hm hok
    rcases AddInterface_ns k n s p o hm with ⟨_, h2⟩ | ⟨h1, _⟩
    · rw [h2]
      simp [allocDstName_iFaces, allocDstName_nextId]
    · rw [h1] at hok
      cases hok

/-- C2 witness: the default namespace keeps the source name; two
allocations with prefix `eth` on the empty non-default namespace differ;
a successful `AddInterface` registers the entity with the allocated
name. -/
theorem C2_dst_name_allocation_witness :
    allocDstName nsDefault "eth0" "veth" = ("eth0", nsDefault) ∧
    (allocSeq ns0 [("s", "eth"), ("s", "eth")]).1.get? 0 ≠
      (allocSeq ns0 [("s", "eth"), ("s", "eth")]).1.get? 1 ∧
    (AddInterface kOK ns0 "veth0" "eth" {}).2.1.iFaces =
      ns0.iFaces ++ [{ buildIface ns0 "veth0" "eth" {} with
                        dstName := (allocDstName ns0 "veth0" "eth").1,
                        id := ns0.nextId }] := by
  refine ⟨C2_dst_name_allocation.1 nsDefault "eth0" "veth" rfl, ?_, ?_⟩
  · exact C2_dst_name_allocation.2.2.2.1 [("s", "eth"), ("s", "eth")] ns0 rfl 0 1
      ("s", "eth") ("s", "eth") (by decide) rfl rfl rfl
  · exact C2_dst_name_allocation.2.2.2.2 kOK ns0 "veth0" "eth" {} rfl (by decide)

/-- The first failing configurator aborts the pipeline: its error is
returned wrapped with the step message, and the trace holds only the
calls of the completed steps plus those of the failing step. -/
theorem runConfigurators_first_fail (k : Kernel) (l : Link) (i : nwIface)
    (pre : List ((Kernel → Link → nwIface → Except String Unit × List NLCall) × String))
    (f : Kernel → Link → nwIface → Except String Unit × List NLCall) (m : String)
    (post : List ((Kernel → Link → nwIface → Except String Unit × List NLCall) × String))
    (e : String) (tr : List NLCall)
    (hpre : ∀ s ∈ pre, (s.1 k l i).1 = Except.ok ())
    (hf : f k l i = (Except.error e, tr)) :
    runConfigurators k l i (pre ++ (f, m) :: post) =
      (Except.error (m ++ ": " ++ e), stepTraces k l i pre ++ tr) := by
  induction pre with
  | nil => simp [runConfigurators, hf, stepTraces]
  | cons s rest ih =>
    have hs : (s.1 k l i).1 = Except.ok () := hpre s (by simp)
    have hrest : ∀ t ∈ rest, (t.1 k l i).1 = Except.ok () := by
      intro t ht
      exact hpre t (by simp [ht])
    cases hsv : s.1 k l i with
    | mk r str =>
      rw [hsv] at hs
      simp only at hs
      subst hs
      simp only [List.cons_append, runConfigurators, hsv, List.append_eq, ih hrest,
        stepTraces, List.append_assoc]

/-- C3: the configurator pipeline applies exactly the six steps rename,
MAC, IPv4, IPv6, master, link-local, in this fixed order; the first step
to fail aborts the pipeline and its error, wrapped with the step message,
is returned with no later step run (the trace stops at the failing
step); and every step whose input is absent is a no-op returning success
with no kernel call. -/
theorem C3_configurator_pipeline :
    (∀ (nm : String) (i : nwIface),
      (ifaceConfigurators nm i).map Prod.fst =
        [setInterfaceName, setInterfaceMAC, setInterfaceIP, setInterfaceIPv6,
         setInterfaceMaster, setInterfaceLinkLocalIPs])
    ∧
    (∀ (k : Kernel) (l : Link) (i : nwIface),
      (i.mac = none → setInterfaceMAC k l i = (Except.ok (), [])) ∧
      (i.address = none → setInterfaceIP k l i = (Except.ok (), [])) ∧
      (i.addressIPv6 = none → setInterfaceIPv6 k l i = (Except.ok (), [])) ∧
      (i.dstMaster = "" → setInterfaceMaster k l i = (Except.ok (), [])) ∧
      (i.llAddrs = [] → setInterfaceLinkLocalIPs k l i = (Except.ok (), [])))
    ∧
    (∀ (k : Kernel) (l : Link) (i : nwIface)
      (pre : List ((Kernel → Link → nwIface → Except String Unit × List NLCall) × String))
      (f : Kernel → Link → nwIface → Except String Unit × List NLCall) (m : String)
      (post : List ((Kernel → Link → nwIface → Except String Unit × List NLCall) × String))
      (e : String) (tr : List NLCall),
      (∀ s ∈ pre, (s.1 k l i).1 = Except.ok ()) →
      f k l i = (Except.error e, tr) →
      runConfigurators k l i (pre ++ (f, m) :: post) =
        (Except.error (m ++ ": " ++ e), stepTraces k l i pre ++ tr))
    ∧
    (∀ (k : Kernel) (l : Link) (i : nwIface),
      configureInterface k l i = runConfigurators k l i (ifaceConfigurators l.name i)) := by
  refine ⟨fun nm i => rfl, ?_, runConfigurators_first_fail, fun k l i => rfl⟩
  intro k l i
  refine ⟨?_, ?_, ?_, ?_, ?_⟩
  · intro h; simp [setInterfaceMAC, h]
  · intro h; simp [setInterfaceIP, h]
  · intro h; simp [setInterfaceIPv6, h]
  · intro h; simp [setInterfaceMaster, h]
  · intro h; simp [setInterfaceLinkLocalIPs, h, addLinkLocalIPs]

/-- C3 witness: with a kernel whose `AddrAdd` fails, on an entity with no
MAC and IPv4 network 192.168.1.5/24, the pipeline runs rename and the MAC
no-op, aborts at the IPv4 step with the wrapped error, and never reaches
the IPv6, master or link-local steps. -/
theorem C3_configurator_pipeline_witness :
    configureInterface { kOK with addrAdd := fun _ _ => Except.error "kaboom" } link0
        { iface0 with address := some net192 } =
      (Except.error "error setting interface veth0 IP to 3232235781/24: kaboom",
       [NLCall.linkSetName "eth0", NLCall.routeList FAMILY_V4,
        NLCall.addrAdd net192 false]) := by
  have habort := C3_configurator_pipeline.2.2.1
    { kOK with addrAdd := fun _ _ => Except.error "kaboom" } link0
    { iface0 with address := some net192 }
    ((ifaceConfigurators link0.name { iface0 with address := some net192 }).take 2)
    setInterfaceIP
    "error setting interface veth0 IP to 3232235781/24"
    ((ifaceConfigurators link0.name { iface0 with address := some net192 }).drop 3)
    "kaboom"
    [NLCall.routeList FAMILY_V4, NLCall.addrAdd net192 false]
    ?hpre ?hf
  case hpre =>
    intro s hs
    have hs2 : s ∈ [((setInterfaceName :
        Kernel → Link → nwIface → Except String Unit × List NLCall),
        "error renaming interface veth0 to eth0"),
      (setInterfaceMAC, "error setting interface veth0 MAC to <nil>")] := hs
    rcases List.mem_cons.1 hs2 with h | h2
    · subst h; rfl
    · rcases List.mem_cons.1 h2 with h | h3
      · subst h; rfl
      · cases h3
  case hf => rfl
  exact (habort :
    configureInterface { kOK with addrAdd := fun _ _ => Except.error "kaboom" } link0
        { iface0 with address := some net192 } =
      (Except.error "error setting interface veth0 IP to 3232235781/24: kaboom",
       [NLCall.linkSetName "eth0", NLCall.routeList FAMILY_V4,
        NLCall.addrAdd net192 false]))

/-- On a pipeline failure the configuration stage returns the original
pipeline error; the rename-back and move-back calls appear at the end of
the trace unconditionally (the kernel results for them are
unconstrained), and the registry is unchanged. -/
theorem addConfigure_config_fail (k : Kernel) (n : networkNamespace) (i : nwIface)
    (l : Link) (e : String) (ctr : List NLCall)
    (hln : k.linkByName i.srcName = Except.ok l)
    (hsd : k.linkSetDown = Except.ok ())
    (hcfg : configureInterface k l i = (Except.error e, ctr)) :
    addConfigure k n i =
      (Except.error e, n,
       NLCall.linkByName i.srcName :: NLCall.linkSetDown ::
         (ctr ++ [NLCall.linkSetName i.srcName, NLCall.linkSetNsFdCaller])) := by
  simp [addConfigure, hln, hsd, hcfg]

/-- C4: when the configurator pipeline fails inside `AddInterface`, the
device rename back to its source name and the move back to the caller
namespace are both attempted (they are on the trace whatever the kernel
answers for them, in particular the move is attempted even if the rename
fails), rollback outcomes never replace the returned error, the original
configuration error is what `AddInterface` returns, and the entity is
never appended to the registered collection. -/
theorem C4_config_failure_rollback :
    (∀ (k : Kernel) (n : networkNamespace) (i : nwIface) (l : Link) (e : String)
      (ctr : List NLCall),
      k.linkByName i.srcName = Except.ok l →
      k.linkSetDown = Except.ok () →
      configureInterface k l i = (Except.error e, ctr) →
      addConfigure k n i =
        (Except.error e, n,
         NLCall.linkByName i.srcName :: NLCall.linkSetDown ::
           (ctr ++ [NLCall.linkSetName i.srcName, NLCall.linkSetNsFdCaller])))
    ∧
    (∀ (k : Kernel) (n : networkNamespace) (s p : String) (o : IfaceOptions)
      (l : Link) (e : String) (ctr : List NLCall),
      o.master = "" → o.bridge = false → n.isDefault = false →
      k.hostLinkByName s = Except.ok l →
      k.getFromPath n.path = Except.ok () →
      k.hostLinkSetNsFd = Except.ok () →
      k.linkByName s = Except.ok l →
      k.linkSetDown = Except.ok () →
      configureInterface k l
          { buildIface n s p o with dstName := (allocDstName n s p).1 } =
        (Except.error e, ctr) →
      (AddInterface k n s p o).1 = Except.error e ∧
      (AddInterface k n s p o).2.1.iFaces = n.iFaces ∧
      (AddInterface k n s p o).2.2 =
        NLCall.hostLinkByName s :: NLCall.getFromPath n.path ::
          NLCall.hostLinkSetNsFd :: NLCall.linkByName s :: NLCall.linkSetDown ::
            (ctr ++ [NLCall.linkSetName s, NLCall.linkSetNsFdCaller])) := by
  refine ⟨addConfigure_config_fail, ?_⟩
  intro k n s p o l e ctr hm hb hdef hhl hgp hsf hln hsd hcfg
  cases hal : allocDstName n s p with
  | mk dn n1 =>
    rw [hal] at hcfg
    have hdef1 : n1.isDefault = false := by
      have ha := allocDstName_isDefault n s p
      rw [hal] at ha
      rw [ha, hdef]
    have hpath1 : n1.path = n.path := by
      have ha : ((allocDstName n s p).2).path = n.path := by
        rw [allocDstName]
        split <;> rfl
      rw [hal] at ha
      exact ha
    have hfib : n1.iFaces = n.iFaces := by
      have ha := allocDstName_iFaces n s p
      rw [hal] at ha
      exact ha
    generalize hbeq : buildIface n s p o = b at hcfg
    have hb2 : b.bridge = false := by rw [← hbeq]; exact hb
    have hm2 : b.master = "" := by rw [← hbeq]; exact hm
    have hs2 : b.srcName = s := by rw [← hbeq]; rfl
    have hln2 : k.linkByName ({ b with dstName := dn } : nwIface).srcName =
        Except.ok l := by simpa [hs2] using hln
    have hcfg2 : configureInterface k l { b with dstName := dn } =
        (Except.error e, ctr) := hcfg
    have hac := addConfigure_config_fail k n1 { b with dstName := dn } l e ctr
      hln2 hsd hcfg2
    have hac2 : addConfigure k n1 { b with dstName := dn } =
        (Except.error e, n1,
         NLCall.linkByName s :: NLCall.linkSetDown ::
           (ctr ++ [NLCall.linkSetName s, NLCall.linkSetNsFdCaller])) := by
      simpa [hs2] using hac
    have hAI : AddInterface k n s p o =
        (Except.error e, n1,
         NLCall.hostLinkByName s :: NLCall.getFromPath n.path ::
           NLCall.hostLinkSetNsFd :: NLCall.linkByName s :: NLCall.linkSetDown ::
             (ctr ++ [NLCall.linkSetName s, NLCall.linkSetNsFdCaller])) := by
      have hac3 := hac2
      simp only [hs2, hm2, hb2] at hac3
      simp [AddInterface, hbeq, hm2, hal, addPlace, hb2, hs2, hdef1, hpath1,
        hhl, hgp, hsf, hac3]
    refine ⟨by rw [hAI], by rw [hAI]; exact hfib, by rw [hAI]⟩

/-- C4 witness: with a kernel whose `LinkSetHardwareAddr` fails and whose
`LinkSetName` fails for the source name (so the rollback rename itself
fails), `AddInterface` returns the original MAC configuration error, the
collection stays empty, and the trace still ends with both rollback
calls: the rename back and the move back to the caller namespace. -/
theorem C4_config_failure_rollback_witness :
    (AddInterface
        { kOK with
            linkSetHardwareAddr := fun _ => Except.error "macfail",
            linkSetName := fun nm =>
              if nm = "veth0" then Except.error "renamefail" else Except.ok () }
        ns0 "veth0" "eth" { mac := some [1, 2, 3] }).1 =
      Except.error "error setting interface veth0 MAC to 1:2:3: macfail" ∧
    (AddInterface
        { kOK with
            linkSetHardwareAddr := fun _ => Except.error "macfail",
            linkSetName := fun nm =>
              if nm = "veth0" then Except.error "renamefail" else Except.ok () }
        ns0 "veth0" "eth" { mac := some [1, 2, 3] }).2.1.iFaces = ns0.iFaces ∧
    (AddInterface
        { kOK with
            linkSetHardwareAddr := fun _ => Except.error "macfail",
            linkSetName := fun nm =>
              if nm = "veth0" then Except.error "renamefail" else Except.ok () }
        ns0 "veth0" "eth" { mac := some [1, 2, 3] }).2.2 =
      NLCall.hostLinkByName "veth0" :: NLCall.getFromPath "/var/run/netns/ns0" ::
        NLCall.hostLinkSetNsFd :: NLCall.linkByName "veth0" :: NLCall.linkSetDown ::
          ([NLCall.linkSetName "eth0", NLCall.linkSetHardwareAddr [1, 2, 3]] ++
            [NLCall.linkSetName "veth0", NLCall.linkSetNsFdCaller]) := by
  exact C4_config_failure_rollback.2
    { kOK with
        linkSetHardwareAddr := fun _ => Except.error "macfail",
        linkSetName := fun nm =>
          if nm = "veth0" then Except.error "renamefail" else Except.ok () }
    ns0 "veth0" "eth" { mac := some [1, 2, 3] } link0
    "error setting interface veth0 MAC to 1:2:3: macfail"
    [NLCall.linkSetName "eth0", NLCall.linkSetHardwareAddr [1, 2, 3]]
    rfl rfl rfl rfl rfl rfl rfl rfl rfl

/-- The retry loop makes at most `fuel` link-up calls. -/
theorem linkUpRetries_countUp (k : Kernel) :
    ∀ (f a : Nat) (e : String),
      List.count NLCall.linkSetUp (linkUpRetries k f a e).2 ≤ f := by
  intro f
  induction f with
  | zero => intro a e; simp [linkUpRetries]
  | succ f ih =>
    intro a e
    cases hk : k.linkSetUp a with
    | ok u => simp [linkUpRetries, hk, List.count_cons]
    | error e2 =>
      have hc := ih (a + 1) e2
      cases hr : linkUpRetries k f (a + 1) e2 with
      | mk r tr =>
        rw [hr] at hc
        simp at hc
        simp [linkUpRetries, hk, hr, List.count_cons]
        omega

/-- C5: link activation makes at most 4 link-up calls (initial attempt
plus up to 3 retries), with the fixed 10ms delay before each retry; if
some attempt among the first 4 succeeds the loop succeeds (failing twice
then succeeding yields exactly 3 link-up calls); if all 4 attempts fail
the loop keeps the last error, `addFinish` wraps it as a link-up failure
with no placement rollback on the trace and the registry unchanged; and a
failed `AddInterface` never appends the entity. -/
theorem C5_linkup_retry :
    (∀ k : Kernel, List.count NLCall.linkSetUp (linkUp k).2 ≤ 4)
    ∧
    (∀ k : Kernel, k.linkSetUp 0 = Except.ok () →
      linkUp k = (Except.ok (), [NLCall.linkSetUp]))
    ∧
    (∀ (k : Kernel) (e0 : String), k.linkSetUp 0 = Except.error e0 →
      k.linkSetUp 1 = Except.ok () →
      linkUp k = (Except.ok (),
        [NLCall.linkSetUp, NLCall.sleep 10, NLCall.linkSetUp]))
    ∧
    (∀ (k : Kernel) (e0 e1 : String), k.linkSetUp 0 = Except.error e0 →
      k.linkSetUp 1 = Except.error e1 → k.linkSetUp 2 = Except.ok () →
      linkUp k = (Except.ok (),
        [NLCall.linkSetUp, NLCall.sleep 10, NLCall.linkSetUp,
         NLCall.sleep 10, NLCall.linkSetUp]))
    ∧
    (∀ (k : Kernel) (e0 e1 e2 : String), k.linkSetUp 0 = Except.error e0 →
      k.linkSetUp 1 = Except.error e1 → k.linkSetUp 2 = Except.error e2 →
      k.linkSetUp 3 = Except.ok () →
      linkUp k = (Except.ok (),
        [NLCall.linkSetUp, NLCall.sleep 10, NLCall.linkSetUp,
         NLCall.sleep 10, NLCall.linkSetUp, NLCall.sleep 10, NLCall.linkSetUp]))
    ∧
    (∀ (k : Kernel) (e0 e1 e2 e3 : String), k.linkSetUp 0 = Except.error e0 →
      k.linkSetUp 1 = Except.error e1 → k.linkSetUp 2 = Except.error e2 →
      k.linkSetUp 3 = Except.error e3 →
      linkUp k = (Except.error e3,
        [NLCall.linkSetUp, NLCall.sleep 10, NLCall.linkSetUp,
         NLCall.sleep 10, NLCall.linkSetUp, NLCall.sleep 10, NLCall.linkSetUp]))
    ∧
    (∀ (k : Kernel) (n : networkNamespace) (l : Link) (i : nwIface)
      (e0 e1 e2 e3 : String), k.linkSetUp 0 = Except.error e0 →
      k.linkSetUp 1 = Except.error e1 → k.linkSetUp 2 = Except.error e2 →
      k.linkSetUp 3 = Except.error e3 →
      addFinish k n l i = (Except.error ("failed to set link up: " ++ e3), n,
        [NLCall.linkSetUp, NLCall.sleep 10, NLCall.linkSetUp,
         NLCall.sleep 10, NLCall.linkSetUp, NLCall.sleep 10, NLCall.linkSetUp]))
    ∧
    (∀ (k : Kernel) (n : networkNamespace) (s p : String) (o : IfaceOptions),
      (AddInterface k n s p o).1.isOk = false →
      (AddInterface k n s p o).2.1.iFaces = n.iFaces) := by
  refine ⟨?_, ?_, ?_, ?_, ?_, ?_, ?_, AddInterface_error_iFaces⟩
  · intro k
    cases hk : k.linkSetUp 0 with
    | ok u => simp [linkUp, hk, List.count_cons]
    | error e =>
      have hc := linkUpRetries_countUp k 3 1 e
      cases hr : linkUpRetries k 3 1 e with
      | mk r tr =>
        rw [hr] at hc
        simp at hc
        simp [linkUp, hk, hr, List.count_cons]
        omega
  · intro k h0
    simp [linkUp, h0]
  · intro k e0 h0 h1
    simp [linkUp, linkUpRetries, h0, h1]
  · intro k e0 e1 h0 h1 h2
    simp [linkUp, linkUpRetries, h0, h1, h2]
  · intro k e0 e1 e2 h0 h1 h2 h3
    simp [linkUp, linkUpRetries, h0, h1, h2, h3]
  · intro k e0 e1 e2 e3 h0 h1 h2 h3
    simp [linkUp, linkUpRetries, h0, h1, h2, h3]
  · intro k n l i e0 e1 e2 e3 h0 h1 h2 h3
    have hlu : linkUp k = (Except.error e3,
        [NLCall.linkSetUp, NLCall.sleep 10, NLCall.linkSetUp,
         NLCall.sleep 10, NLCall.linkSetUp, NLCall.sleep 10, NLCall.linkSetUp]) := by
      simp [linkUp, linkUpRetries, h0, h1, h2, h3]
    simp [addFinish, hlu]

/-- C5 witness: a kernel failing the first two link-up attempts then
succeeding yields exactly 3 link-up calls with the fixed delay before
each retry; a kernel failing all 4 attempts makes `addFinish` return the
wrapped activation error with the registry untouched; and that failed
`AddInterface` leaves the collection empty. -/
theorem C5_linkup_retry_witness :
    linkUp { kOK with
        linkSetUp := fun a => if a < 2 then Except.error "up-fail" else Except.ok () } =
      (Except.ok (),
       [NLCall.linkSetUp, NLCall.sleep 10, NLCall.linkSetUp,
        NLCall.sleep 10, NLCall.linkSetUp]) ∧
    addFinish { kOK with linkSetUp := fun _ => Except.error "up-fail" } ns0 link0 iface0 =
      (Except.error "failed to set link up: up-fail", ns0,
       [NLCall.linkSetUp, NLCall.sleep 10, NLCall.linkSetUp,
        NLCall.sleep 10, NLCall.linkSetUp, NLCall.sleep 10, NLCall.linkSetUp]) ∧
    (AddInterface { kOK with linkSetUp := fun _ => Except.error "up-fail" }
        ns0 "veth0" "eth" {}).2.1.iFaces = ns0.iFaces := by
  refine ⟨?_, ?_, ?_⟩
  · exact C5_linkup_retry.2.2.2.1
      { kOK with
          linkSetUp := fun a => if a < 2 then Except.error "up-fail" else Except.ok () }
      "up-fail" "up-fail" rfl rfl rfl
  · exact C5_linkup_retry.2.2.2.2.2.2.1
      { kOK with linkSetUp := fun _ => Except.error "up-fail" } ns0 link0 iface0
      "up-fail" "up-fail" "up-fail" "up-fail" rfl rfl rfl rfl
  · exact C5_linkup_retry.2.2.2.2.2.2.2
      { kOK with linkSetUp := fun _ => Except.error "up-fail" } ns0 "veth0" "eth" {}
      (by decide)

/-- C6: `Remove` sets the device down and renames it back to its source
name, where a rename failure aborts the removal and is returned
unchanged; a bridge-flagged entity is then deleted from the kernel while
a non-bridge entity in a non-default namespace is moved back to the
caller namespace; in both successful cases the entity is afterwards
removed from the collection, found by identity (the `id` field modelling
Go pointer equality) rather than by name. -/
theorem C6_remove :
    (∀ (k : Kernel) (n : networkNamespace) (i : nwIface) (l : Link) (e : String),
      k.linkByName i.dstName = Except.ok l → k.linkSetDown = Except.ok () →
      k.linkSetName i.srcName = Except.error e →
      Remove k n i = (Except.error e, n,
        [NLCall.linkByName i.dstName, NLCall.linkSetDown,
         NLCall.linkSetName i.srcName]))
    ∧
    (∀ (k : Kernel) (n : networkNamespace) (i : nwIface) (l : Link),
      i.bridge = true →
      k.linkByName i.dstName = Except.ok l → k.linkSetDown = Except.ok () →
      k.linkSetName i.srcName = Except.ok () → k.linkDel = Except.ok () →
      Remove k n i = (Except.ok (),
        { n with iFaces := removeByIdentity n.iFaces i.id },
        [NLCall.linkByName i.dstName, NLCall.linkSetDown,
         NLCall.linkSetName i.srcName, NLCall.linkDel, NLCall.checkLoV6]))
    ∧
    (∀ (k : Kernel) (n : networkNamespace) (i : nwIface) (l : Link),
      i.bridge = false → n.isDefault = false →
      k.linkByName i.dstName = Except.ok l → k.linkSetDown = Except.ok () →
      k.linkSetName i.srcName = Except.ok () → k.linkSetNsFdCaller = Except.ok () →
      Remove k n i = (Except.ok (),
        { n with iFaces := removeByIdentity n.iFaces i.id },
        [NLCall.linkByName i.dstName, NLCall.linkSetDown,
         NLCall.linkSetName i.srcName, NLCall.linkSetNsFdCaller, NLCall.checkLoV6]))
    ∧
    (∀ (a b : nwIface) (rest : List nwIface), a.id ≠ b.id →
      removeByIdentity (a :: rest) b.id = a :: removeByIdentity rest b.id)
    ∧
    (∀ (b : nwIface) (rest : List nwIface),
      removeByIdentity (b :: rest) b.id = rest) := by
  refine ⟨?_, ?_, ?_, ?_, ?_⟩
  · intro k n i l e hln hsd hsn
    simp [Remove, hln, hsd, hsn]
  · intro k n i l hb hln hsd hsn hdel
    simp [Remove, hln, hsd, hsn, hb, hdel, removeFinish]
  · intro k n i l hb hdef hln hsd hsn hfd
    simp [Remove, hln, hsd, hsn, hb, hdef, hfd, removeFinish]
  · intro a b rest h
    simp [removeByIdentity, h]
  · intro b rest
    simp [removeByIdentity]

/-- C6 witness: in a registry holding two entities that share the
destination name `ethX` but have identities 1 and 2, removing the
identity-2 entity removes exactly that one — the identity-1 entity with
the same name, though it comes first, stays registered — and the trace
shows down, rename back and the move back to the caller namespace. -/
theorem C6_remove_witness :
    Remove kOK
        { ns0 with iFaces := [{ iface0 with id := 1, dstName := "ethX" },
                              { iface0 with id := 2, dstName := "ethX" }] }
        { iface0 with id := 2, dstName := "ethX" } =
      (Except.ok (),
       { ns0 with iFaces := [{ iface0 with id := 1, dstName := "ethX" }] },
       [NLCall.linkByName "ethX", NLCall.linkSetDown, NLCall.linkSetName "veth0",
        NLCall.linkSetNsFdCaller, NLCall.checkLoV6]) := by
  have h := C6_remove.2.2.1 kOK
    { ns0 with iFaces := [{ iface0 with id := 1, dstName := "ethX" },
                          { iface0 with id := 2, dstName := "ethX" }] }
    { iface0 with id := 2, dstName := "ethX" } link0
    rfl rfl rfl rfl rfl rfl
  rw [h]
  rfl

/-- C7: `Statistics` locates the device by destination name and fails
with a wrapped lookup error when not found; it fails when the kernel
reports no statistics object; otherwise the returned snapshot equals
exactly the statistics reported by the kernel handle. -/
theorem C7_statistics :
    (∀ (k : Kernel) (i : nwIface) (e : String),
      k.linkByName i.dstName = Except.error e →
      Statistics k i = (Except.error ("failed to retrieve the statistics for " ++
        i.dstName ++ " in netns " ++ i.nsPath ++ ": " ++ e),
        [NLCall.linkByName i.dstName]))
    ∧
    (∀ (k : Kernel) (i : nwIface) (l : Link),
      k.linkByName i.dstName = Except.ok l → l.statistics = none →
      Statistics k i = (Except.error "no statistics were returned",
        [NLCall.linkByName i.dstName]))
    ∧
    (∀ (k : Kernel) (i : nwIface) (l : Link) (s : InterfaceStatistics),
      k.linkByName i.dstName = Except.ok l → l.statistics = some s →
      Statistics k i = (Except.ok s, [NLCall.linkByName i.dstName])) := by
  refine ⟨?_, ?_, ?_⟩
  · intro k i e h
    simp [Statistics, h]
  · intro k i l h hs
    simp [Statistics, h, hs]
  · intro k i l s h hs
    cases s
    simp [Statistics, h, hs]

/-- C7 witness: an unknown destination name yields the wrapped lookup
error; a registered device returns exactly the kernel counters. -/
theorem C7_statistics_witness :
    Statistics { kOK with linkByName := fun _ => Except.error "not found" } iface0 =
      (Except.error
        "failed to retrieve the statistics for eth0 in netns /var/run/netns/ns0: not found",
       [NLCall.linkByName "eth0"]) ∧
    Statistics kOK iface0 = (Except.ok stats0, [NLCall.linkByName "eth0"]) := by
  constructor
  · exact C7_statistics.1 { kOK with linkByName := fun _ => Except.error "not found" }
      iface0 "not found" rfl
  · exact C7_statistics.2.2 kOK iface0 link0 stats0 rfl rfl

/-- C9: if `Remove` fails at any step before its final bookkeeping (the
lookup by destination name, the set-down, the rename back, the bridge
deletion or the move back to the caller namespace), the returned registry
is the input registry unchanged: the entity is still registered and no
registry field was modified (entities themselves are never written by
`Remove`). -/
theorem C9_remove_failure_preserves_registry (k : Kernel) (n : networkNamespace)
    (i : nwIface) (h : (Remove k n i).1.isOk = false) :
    (Remove k n i).2.1 = n := by
  cases hln : k.linkByName i.dstName with
  | error e => simp [Remove, hln]
  | ok l =>
    cases hsd : k.linkSetDown with
    | error e => simp [Remove, hln, hsd]
    | ok u =>
      cases hsn : k.linkSetName i.srcName with
      | error e => simp [Remove, hln, hsd, hsn]
      | ok u2 =>
        by_cases hb : i.bridge
        · cases hdel : k.linkDel with
          | error e => simp [Remove, hln, hsd, hsn, hb, hdel]
          | ok u3 =>
            exfalso
            have hok : (Remove k n i).1.isOk = true := by
              simp [Remove, hln, hsd, hsn, hb, hdel, removeFinish, Except.isOk,
                Except.toBool]
            rw [hok] at h
            cases h
        · by_cases hdef : n.isDefault
          · exfalso
            have hok : (Remove k n i).1.isOk = true := by
              simp [Remove, hln, hsd, hsn, hb, hdef, removeFinish, Except.isOk,
                Except.toBool]
            rw [hok] at h
            cases h
          · cases hfd : k.linkSetNsFdCaller with
            | error e => simp [Remove, hln, hsd, hsn, hb, hdef, hfd]
            | ok u3 =>
              exfalso
              have hok : (Remove k n i).1.isOk = true := by
                simp [Remove, hln, hsd, hsn, hb, hdef, hfd, removeFinish, Except.isOk,
                  Except.toBool]
              rw [hok] at h
              cases h

/-- C9 witness: a `Remove` whose set-down fails, on a one-entity
registry, errors and leaves the registry exactly as it was. -/
theorem C9_remove_failure_preserves_registry_witness :
    (Remove { kOK with linkSetDown := Except.error "downfail" }
        { ns0 with iFaces := [iface0] } iface0).1.isOk = false ∧
    (Remove { kOK with linkSetDown := Except.error "downfail" }
        { ns0 with iFaces := [iface0] } iface0).2.1 =
      { ns0 with iFaces := [iface0] } := by
  refine ⟨by decide, ?_⟩
  exact C9_remove_failure_preserves_registry
    { kOK with linkSetDown := Except.error "downfail" }
    { ns0 with iFaces := [iface0] } iface0 (by decide)

/-- Reading below the length of the left part of an append. -/
theorem list_getD_append_lt {α : Type} :
    ∀ (l1 l2 : List α) (a : Nat) (d : α), a < l1.length →
      (l1 ++ l2).getD a d = l1.getD a d := by
  intro l1
  induction l1 with
  | nil => intro l2 a d h; cases h
  | cons x xs ih =>
    intro l2 a d h
    cases a with
    | zero => rfl
    | succ a =>
      have := ih l2 a d (by simpa using h)
      simpa using this

/-- Reading at an offset past the left part of an append. -/
theorem list_getD_append_right {α : Type} :
    ∀ (l1 l2 : List α) (j : Nat) (d : α),
      (l1 ++ l2).getD (l1.length + j) d = l2.getD j d := by
  intro l1
  induction l1 with
  | nil => intro l2 j d; simp
  | cons x xs ih =>
    intro l2 j d
    have := ih l2 j d
    simpa [Nat.succ_add] using this

/-- Writing one cell does not change another. -/
theorem list_getD_set_ne {α : Type} :
    ∀ (l : List α) (a b : Nat) (v d : α), a ≠ b →
      (l.set a v).getD b d = l.getD b d := by
  intro l
  induction l with
  | nil => intro a b v d h; cases a <;> rfl
  | cons x xs ih =>
    intro a b v d h
    cases a with
    | zero =>
      cases b with
      | zero => exact absurd rfl h
      | succ b => rfl
    | succ a =>
      cases b with
      | zero => rfl
      | succ b =>
        have := ih a b v d (fun hh => h (by rw [hh]))
        simpa using this

/-- Writing a valid cell is visible at that cell. -/
theorem list_getD_set_self {α : Type} :
    ∀ (l : List α) (a : Nat) (v d : α), a < l.length →
      (l.set a v).getD a d = v := by
  intro l
  induction l with
  | nil => intro a v d h; cases h
  | cons x xs ih =>
    intro a v d h
    cases a with
    | zero => rfl
    | succ a =>
      have := ih a v d (by simpa using h)
      simpa using this

/-- Reading a mapped list at a position holding `a`. -/
theorem list_getD_map_of_get? {α β : Type} (f : α → β) :
    ∀ (l : List α) (j : Nat) (a : α) (d : β), l.get? j = some a →
      (l.map f).getD j d = f a := by
  intro l
  induction l with
  | nil => intro j a d h; cases h
  | cons x xs ih =>
    intro j a d h
    cases j with
    | zero =>
      rw [List.get?] at h
      cases h
      rfl
    | succ j =>
      rw [List.get?] at h
      have := ih j a d h
      simpa using this

/-- Characterization of the `Routes` copying loop: the returned addresses
are the freshly allocated cells at the end of the heap, in order, and the
heap is extended with copies of the stored values. -/
theorem copyNets_spec :
    ∀ (l : List Nat) (s : Store), (∀ a ∈ l, a < s.netHeap.length) →
      (copyNets s l).1 = List.range' s.netHeap.length l.length ∧
      (copyNets s l).2.netHeap =
        s.netHeap ++ l.map (fun a => s.netHeap.getD a net0) ∧
      (copyNets s l).2.macHeap = s.macHeap := by
  intro l
  induction l with
  | nil => intro s hval; exact ⟨rfl, by simp [copyNets], rfl⟩
  | cons a rest ih =>
    intro s hval
    have ha : a < s.netHeap.length := hval a (by simp)
    have hval1 : ∀ b ∈ rest,
        b < ({ s with netHeap := s.netHeap ++ [s.netHeap.getD a net0] } :
          Store).netHeap.length := by
      intro b hb
      have := hval b (by simp [hb])
      simp
      omega
    have hrec := ih { s with netHeap := s.netHeap ++ [s.netHeap.getD a net0] } hval1
    obtain ⟨h1, h2, h3⟩ := hrec
    refine ⟨?_, ?_, ?_⟩
    · simp only [copyNets, netCopyAlloc]
      cases hc : copyNets { s with netHeap := s.netHeap ++ [s.netHeap.getD a net0] }
          rest with
      | mk rl s2 =>
        rw [hc] at h1
        simp at h1
        simp [h1, List.range']
    · simp only [copyNets, netCopyAlloc]
      cases hc : copyNets { s with netHeap := s.netHeap ++ [s.netHeap.getD a net0] }
          rest with
      | mk rl s2 =>
        rw [hc] at h2
        simp at h2
        simp [h2]
        intro b hb
        have hlt := list_getD_append_lt s.netHeap [s.netHeap.getD a net0] b net0
          (hval b (by simp [hb]))
        simpa [List.getD, List.get?_eq_getElem?] using hlt
    · simp only [copyNets, netCopyAlloc]
      cases hc : copyNets { s with netHeap := s.netHeap ++ [s.netHeap.getD a net0] }
          rest with
      | mk rl s2 =>
        rw [hc] at h3
        simpa using h3

/-- C8: the accessors for the hardware address, the IPv4 network, the
IPv6 network and the route list return independent copies: the returned
reference is fresh (distinct from the stored one), the value read through
it equals the stored value, and writing through the returned reference
leaves the value read through the entity's stored reference unchanged. -/
theorem C8_defensive_copies :
    (∀ (s : Store) (i : nwIfaceRef) (addr : Nat), i.mac = some addr →
      addr < s.macHeap.length →
      (i.MacAddress s).1 = some s.macHeap.length ∧
      s.macHeap.length ≠ addr ∧
      Store.readMac (i.MacAddress s).2 s.macHeap.length = Store.readMac s addr ∧
      (∀ v, Store.readMac
        (Store.writeMac (i.MacAddress s).2 s.macHeap.length v) addr =
        Store.readMac s addr))
    ∧
    (∀ (s : Store) (i : nwIfaceRef) (addr : Nat), i.address = some addr →
      addr < s.netHeap.length →
      (i.Address s).1 = some s.netHeap.length ∧
      s.netHeap.length ≠ addr ∧
      Store.readNet (i.Address s).2 s.netHeap.length = Store.readNet s addr ∧
      (∀ v, Store.readNet
        (Store.writeNet (i.Address s).2 s.netHeap.length v) addr =
        Store.readNet s addr))
    ∧
    (∀ (s : Store) (i : nwIfaceRef) (addr : Nat), i.addressIPv6 = some addr →
      addr < s.netHeap.length →
      (i.AddressIPv6 s).1 = some s.netHeap.length ∧
      s.netHeap.length ≠ addr ∧
      Store.readNet (i.AddressIPv6 s).2 s.netHeap.length = Store.readNet s addr ∧
      (∀ v, Store.readNet
        (Store.writeNet (i.AddressIPv6 s).2 s.netHeap.length v) addr =
        Store.readNet s addr))
    ∧
    (∀ (s : Store) (i : nwIfaceRef), (∀ a ∈ i.routes, a < s.netHeap.length) →
      ∀ (j addr : Nat), i.routes.get? j = some addr →
      (i.Routes s).1.get? j = some (s.netHeap.length + j) ∧
      Store.readNet (i.Routes s).2 (s.netHeap.length + j) = Store.readNet s addr ∧
      (∀ (v : IPNet), ∀ b ∈ i.routes,
        Store.readNet (Store.writeNet (i.Routes s).2 (s.netHeap.length + j) v) b =
          Store.readNet s b)) := by
  refine ⟨?_, ?_, ?_, ?_⟩
  · intro s i addr hmac hlt
    have hMA : i.MacAddress s =
        (some s.macHeap.length,
         { s with macHeap := s.macHeap ++ [s.macHeap.getD addr []] }) := by
      simp [nwIfaceRef.MacAddress, GetMacCopy, macCopyAlloc, hmac]
    refine ⟨by rw [hMA], by omega, ?_, ?_⟩
    · rw [hMA]
      show (s.macHeap ++ [s.macHeap.getD addr []]).getD s.macHeap.length [] =
        s.macHeap.getD addr []
      simp
    · intro v
      rw [hMA]
      show ((s.macHeap ++ [s.macHeap.getD addr []]).set s.macHeap.length v).getD
        addr [] = s.macHeap.getD addr []
      rw [list_getD_set_ne _ _ _ _ _ (by omega)]
      exact list_getD_append_lt _ _ _ _ hlt
  · intro s i addr ha hlt
    have hA : i.Address s =
        (some s.netHeap.length,
         { s with netHeap := s.netHeap ++ [s.netHeap.getD addr net0] }) := by
      simp [nwIfaceRef.Address, GetIPNetCopy, netCopyAlloc, ha]
    refine ⟨by rw [hA], by omega, ?_, ?_⟩
    · rw [hA]
      show (s.netHeap ++ [s.netHeap.getD addr net0]).getD s.netHeap.length net0 =
        s.netHeap.getD addr net0
      simp
    · intro v
      rw [hA]
      show ((s.netHeap ++ [s.netHeap.getD addr net0]).set s.netHeap.length v).getD
        addr net0 = s.netHeap.getD addr net0
      rw [list_getD_set_ne _ _ _ _ _ (by omega)]
      exact list_getD_append_lt _ _ _ _ hlt
  · intro s i addr ha hlt
    have hA : i.AddressIPv6 s =
        (some s.netHeap.length,
         { s with netHeap := s.netHeap ++ [s.netHeap.getD addr net0] }) := by
      simp [nwIfaceRef.AddressIPv6, GetIPNetCopy, netCopyAlloc, ha]
    refine ⟨by rw [hA], by omega, ?_, ?_⟩
    · rw [hA]
      show (s.netHeap ++ [s.netHeap.getD addr net0]).getD s.netHeap.length net0 =
        s.netHeap.getD addr net0
      simp
    · intro v
      rw [hA]
      show ((s.netHeap ++ [s.netHeap.getD addr net0]).set s.netHeap.length v).getD
        addr net0 = s.netHeap.getD addr net0
      rw [list_getD_set_ne _ _ _ _ _ (by omega)]
      exact list_getD_append_lt _ _ _ _ hlt
  · intro s i hval j addr hj
    obtain ⟨hcn1, hcn2, _⟩ := copyNets_spec i.routes s hval
    have hjlt : j < i.routes.length := by
      rcases List.get?_eq_some.1 hj with ⟨h, _⟩
      exact h
    have haddr : addr < s.netHeap.length := by
      have hmem : addr ∈ i.routes := List.get?_mem hj
      exact hval addr hmem
    refine ⟨?_, ?_, ?_⟩
    · show (copyNets s i.routes).1.get? j = some (s.netHeap.length + j)
      rw [hcn1, List.get?_eq_getElem?, List.getElem?_range' _ _ hjlt]
      simp
    · show Store.readNet (copyNets s i.routes).2 (s.netHeap.length + j) =
        Store.readNet s addr
      show ((copyNets s i.routes).2.netHeap).getD (s.netHeap.length + j) net0 =
        s.netHeap.getD addr net0
      rw [hcn2, list_getD_append_right]
      exact list_getD_map_of_get? _ i.routes j addr net0 hj
    · intro v b hb
      show (((copyNets s i.routes).2.netHeap).set (s.netHeap.length + j) v).getD
        b net0 = s.netHeap.getD b net0
      have hblt : b < s.netHeap.length := hval b hb
      rw [list_getD_set_ne _ _ _ _ _ (by omega), hcn2]
      exact list_getD_append_lt _ _ _ _ hblt

/-- C8 witness: on a concrete store with one MAC cell and two IPNet
cells, `MacAddress` returns a fresh cell holding the same bytes whose
mutation leaves the stored cell untouched, and `Routes` returns fresh
cells mirroring the stored routes with the same independence. -/
theorem C8_defensive_copies_witness :
    (nwIfaceRef.MacAddress
      { mac := some 0, address := some 1, addressIPv6 := some 0,
        llAddrs := [0], routes := [0, 1] }
      { macHeap := [[170, 0, 14]], netHeap := [net10, net192] }).1 = some 1 ∧
    Store.readMac
      (nwIfaceRef.MacAddress
        { mac := some 0, address := some 1, addressIPv6 := some 0,
          llAddrs := [0], routes := [0, 1] }
        { macHeap := [[170, 0, 14]], netHeap := [net10, net192] }).2 1 =
      [170, 0, 14] ∧
    Store.readMac
      (Store.writeMac
        (nwIfaceRef.MacAddress
          { mac := some 0, address := some 1, addressIPv6 := some 0,
            llAddrs := [0], routes := [0, 1] }
          { macHeap := [[170, 0, 14]], netHeap := [net10, net192] }).2 1 [9]) 0 =
      [170, 0, 14] ∧
    (nwIfaceRef.Routes
      { mac := some 0, address := some 1, addressIPv6 := some 0,
        llAddrs := [0], routes := [0, 1] }
      { macHeap := [[170, 0, 14]], netHeap := [net10, net192] }).1.get? 1 =
      some 3 ∧
    Store.readNet
      (nwIfaceRef.Routes
        { mac := some 0, address := some 1, addressIPv6 := some 0,
          llAddrs := [0], routes := [0, 1] }
        { macHeap := [[170, 0, 14]], netHeap := [net10, net192] }).2 3 = net192 ∧
    Store.readNet
      (Store.writeNet
        (nwIfaceRef.Routes
          { mac := some 0, address := some 1, addressIPv6 := some 0,
            llAddrs := [0], routes := [0, 1] }
          { macHeap := [[170, 0, 14]], netHeap := [net10, net192] }).2 3 net10) 1 =
      net192 := by
  have h1 := C8_defensive_copies.1
    { macHeap := [[170, 0, 14]], netHeap := [net10, net192] }
    { mac := some 0, address := some 1, addressIPv6 := some 0,
      llAddrs := [0], routes := [0, 1] } 0 rfl (by decide)
  have h4 := C8_defensive_copies.2.2.2
    { macHeap := [[170, 0, 14]], netHeap := [net10, net192] }
    { mac := some 0, address := some 1, addressIPv6 := some 0,
      llAddrs := [0], routes := [0, 1] } (by decide) 1 1 rfl
  exact ⟨h1.1, h1.2.2.1.trans rfl, (h1.2.2.2 [9]).trans rfl,
         h4.1, h4.2.1.trans rfl, (h4.2.2 net10 1 (by decide)).trans rfl⟩

/-- C10: `LinkLocalAddresses` returns the stored slice itself, with the
store untouched and no copy made; consequently a caller writing through a
returned address changes the cell the entity's own link-local address
refers to.  For contrast, the addresses `Routes` returns are all fresh
and never among the stored ones. -/
theorem C10_link_local_no_copy :
    (∀ (s : Store) (i : nwIfaceRef),
      nwIfaceRef.LinkLocalAddresses i s = (i.llAddrs, s))
    ∧
    (∀ (s : Store) (i : nwIfaceRef) (j a : Nat) (v : IPNet),
      (nwIfaceRef.LinkLocalAddresses i s).1.get? j = some a →
      a < s.netHeap.length →
      Store.readNet (Store.writeNet s a v) a = v)
    ∧
    (∀ (s : Store) (i : nwIfaceRef), (∀ a ∈ i.routes, a < s.netHeap.length) →
      ∀ b ∈ (nwIfaceRef.Routes i s).1, b ∉ i.routes) := by
  refine ⟨fun s i => rfl, ?_, ?_⟩
  · intro s i j a v hj hlt
    exact list_getD_set_self s.netHeap a v net0 hlt
  · intro s i hval b hb
    obtain ⟨hcn1, _, _⟩ := copyNets_spec i.routes s hval
    have hb2 : b ∈ List.range' s.netHeap.length i.routes.length := by
      rw [nwIfaceRef.Routes, hcn1] at hb
      exact hb
    have hge : s.netHeap.length ≤ b := by
      obtain ⟨i2, hi2, rfl⟩ := List.mem_range'.1 hb2
      omega
    intro hmem
    have := hval b hmem
    omega

/-- C10 witness: on a concrete store, `LinkLocalAddresses` returns
exactly the stored slice `[0]` with the store unchanged, and writing
through that address changes what the entity's stored address now
holds. -/
theorem C10_link_local_no_copy_witness :
    nwIfaceRef.LinkLocalAddresses
        { mac := some 0, address := some 1, addressIPv6 := some 0,
          llAddrs := [0], routes := [0, 1] }
        { macHeap := [[170, 0, 14]], netHeap := [net10, net192] } =
      ([0], { macHeap := [[170, 0, 14]], netHeap := [net10, net192] }) ∧
    Store.readNet
      (Store.writeNet { macHeap := [[170, 0, 14]], netHeap := [net10, net192] }
        0 net192) 0 = net192 := by
  refine ⟨C10_link_local_no_copy.1
    { macHeap := [[170, 0, 14]], netHeap := [net10, net192] }
    { mac := some 0, address := some 1, addressIPv6 := some 0,
      llAddrs := [0], routes := [0, 1] }, ?_⟩
  exact C10_link_local_no_copy.2.1
    { macHeap := [[170, 0, 14]], netHeap := [net10, net192] }
    { mac := some 0, address := some 1, addressIPv6 := some 0,
      llAddrs := [0], routes := [0, 1] } 0 0 net192 rfl (by decide)
